import Mathlib

/-!
# Verification of the qWp OBD telemetry backend

A shallow embedding, in Lean 4, of the Python backend of the qWp repository:

* `src/backend/obd_data.py`   — VIN decoding (`decode_vin`), per-command response
  processing (`_process_individual_obd_response`, `query_obd_command`) and the
  full snapshot producer (`query_obd_data`);
* `src/backend/obd_connection.py` — the adapter-connection lifecycle
  (`initialize_obd_connection`, `get_connection`, `close_connection`).

Python dictionaries are embedded as association lists with Python's dict
semantics (insertion order, overwrite on duplicate key, append on new key).
Python floats are embedded as rationals (`ℚ`); `round(x, 2)` is embedded as
exact round-half-to-even on rationals.  The external `python-obd` adapter and
`asyncio` scheduler are embedded as explicit environments supplying the result
of every adapter call.
-/

namespace QWp

/-! ## Python dictionaries as association lists -/

/-- Python values as they occur in this backend's data flow.  `quantity`
embeds a pint `Quantity` (an object with `magnitude` and `units` attributes);
all other constructors embed the corresponding Python type.  Python ints and
floats are merged into `num : ℚ` (the backend never branches on
`int`-versus-`float` in a way that the merged embedding cannot reproduce:
`round(x, 2)` is the identity on integer-valued rationals). -/
inductive PyVal where
  | none
  | bool (b : Bool)
  | num (q : ℚ)
  | str (s : String)
  | tuple (xs : List PyVal)
  | list (xs : List PyVal)
  | dict (kvs : List (String × PyVal))
  | quantity (mag : ℚ) (units : String)

/-- A Python dict with `String` keys, kept in insertion order. -/
abbrev Snapshot := List (String × PyVal)

/-- `d[k] = v` on a Python dict: overwrite the existing entry for `k`,
or append a fresh entry at the end. -/
def dictSet (d : Snapshot) (k : String) (v : PyVal) : Snapshot :=
  match d with
  | [] => [(k, v)]
  | (k', v') :: rest => if k' = k then (k, v) :: rest else (k', v') :: dictSet rest k v

/-- `d.get(k)` on a Python dict. -/
def dictLookup (d : Snapshot) (k : String) : Option PyVal :=
  match d with
  | [] => Option.none
  | (k', v') :: rest => if k' = k then some v' else dictLookup rest k

/-- `k in d` on a Python dict. -/
def hasKey (d : Snapshot) (k : String) : Bool :=
  (dictLookup d k).isSome

/-! ## VIN decoding (`obd_data.py`, lines 12–186) -/

/-- The `MANUFACTURER_CODES` dict literal from `obd_data.py` lines 12–106,
in source (= insertion = iteration) order.  Its keys are pairwise distinct,
so the association list is exactly the Python dict. -/
def MANUFACTURER_CODES : List (String × String) := [
  ("1G", "General Motors (US)"),
  ("1G1", "Chevrolet"),
  ("1GC", "Chevrolet Truck"),
  ("1GD", "GMC Truck"),
  ("1GM", "Pontiac"),
  ("1G2", "Pontiac"),
  ("1G3", "Oldsmobile"),
  ("1G4", "Buick"),
  ("1G6", "Cadillac"),
  ("1H", "Honda (US)"),
  ("1HD", "Harley-Davidson"),
  ("1J", "Jeep"),
  ("1L", "Lincoln"),
  ("1M", "Mercury"),
  ("1N", "Nissan (US)"),
  ("1V", "Volkswagen (US)"),
  ("1Y", "General Motors (US)"),
  ("2F", "Ford (Canada)"),
  ("2G", "General Motors (Canada)"),
  ("2H", "Honda (Canada)"),
  ("2M", "Mercury (Canada)"),
  ("2T", "Toyota (Canada)"),
  ("3F", "Ford (Mexico)"),
  ("3G", "General Motors (Mexico)"),
  ("3H", "Honda (Mexico)"),
  ("3N", "Nissan (Mexico)"),
  ("3V", "Volkswagen (Mexico)"),
  ("4F", "Mazda (USA)"),
  ("4M", "Mercury (Mexico)"),
  ("4S", "Subaru (USA)"),
  ("4T", "Toyota (USA)"),
  ("4U", "Subaru"),
  ("5F", "Honda (US)"),
  ("5L", "Lincoln (US)"),
  ("5N", "Hyundai (Korea)"),
  ("5T", "Toyota (US Truck)"),
  ("5Y", "Mazda (US)"),
  ("JA", "Isuzu"),
  ("JF", "Fuji Heavy Industries (Subaru)"),
  ("JH", "Honda (Japan)"),
  ("JM", "Mazda (Japan)"),
  ("JN", "Nissan (Japan)"),
  ("JS", "Suzuki (Japan)"),
  ("JT", "Toyota (Japan)"),
  ("KL", "Daewoo/GM Korea"),
  ("KM", "Hyundai"),
  ("KN", "Kia"),
  ("L5", "Lincoln"),
  ("NM", "Mitsubishi (Japan)"),
  ("SAL", "Land Rover"),
  ("SAJ", "Jaguar"),
  ("SAR", "Rover"),
  ("SCC", "Lotus"),
  ("SCF", "Aston Martin"),
  ("SDB", "Peugeot"),
  ("SFD", "Alexander Dennis"),
  ("SHS", "Honda (UK)"),
  ("SJN", "Nissan (UK)"),
  ("TM", "Mitsubishi (Japan)"),
  ("TMB", "Skoda"),
  ("TRU", "Audi"),
  ("VF1", "Renault"),
  ("VF3", "Peugeot"),
  ("VF7", "Citroën"),
  ("VNK", "Toyota (Japan)"),
  ("VS5", "Toyota (Japan)"),
  ("VV", "Volkswagen (Spain)"),
  ("VWV", "Volkswagen"),
  ("W0L", "Opel/Vauxhall"),
  ("WA1", "Audi SUV"),
  ("WAU", "Audi"),
  ("WBA", "BMW"),
  ("WBS", "BMW M"),
  ("WDB", "Mercedes-Benz"),
  ("WDC", "Mercedes-Benz SUV"),
  ("WDD", "Mercedes-Benz"),
  ("WMW", "Mini"),
  ("WP0", "Porsche"),
  ("WP1", "Porsche SUV"),
  ("WUA", "Audi Sport"),
  ("WVG", "Volkswagen SUV"),
  ("WVW", "Volkswagen"),
  ("XL9", "Spyker"),
  ("XTA", "Lada/AvtoVAZ"),
  ("YK1", "Saab"),
  ("YS3", "Saab"),
  ("YV1", "Volvo"),
  ("YV4", "Volvo SUV"),
  ("ZA9", "Bugatti"),
  ("ZAR", "Alfa Romeo"),
  ("ZFA", "Fiat"),
  ("ZFF", "Ferrari")]

/-- Python `vin.startswith(code)`, computed on the underlying character
lists. -/
def strStartsWith (s pre : String) : Bool :=
  pre.data.isPrefixOf s.data

/-- Simple lookup in a `List (String × String)` table by key characters
(Python `dict[k]` / `k in dict` for the manufacturer table, whose keys are
distinct). -/
def tblLookup (tbl : List (String × String)) (k : List Char) : Option String :=
  (tbl.find? (fun p => p.1.data = k)).map (·.2)

/-- The `year_map` dict literal from `obd_data.py` lines 144–151, as the raw
sequence of key/value pairs in source order.  The letters `A`–`H`, `J`–`N`,
`P`, `R` occur twice (a 1980s cycle and a 2010s cycle); Python dict-literal
evaluation lets the later (2010s) entry overwrite the earlier one. -/
def yearMapPairs : List (Char × ℕ) := [
  ('A', 1980), ('B', 1981), ('C', 1982), ('D', 1983), ('E', 1984), ('F', 1985),
  ('G', 1986), ('H', 1987),
  ('J', 1988), ('K', 1989), ('L', 1990), ('M', 1991), ('N', 1992), ('P', 1993),
  ('R', 1994), ('S', 1995),
  ('T', 1996), ('V', 1997), ('W', 1998), ('X', 1999), ('Y', 2000), ('1', 2001),
  ('2', 2002), ('3', 2003),
  ('4', 2004), ('5', 2005), ('6', 2006), ('7', 2007), ('8', 2008), ('9', 2009),
  ('A', 2010), ('B', 2011),
  ('C', 2012), ('D', 2013), ('E', 2014), ('F', 2015), ('G', 2016), ('H', 2017),
  ('J', 2018), ('K', 2019),
  ('L', 2020), ('M', 2021), ('N', 2022), ('P', 2023), ('R', 2024)]

/-- Insert one key/value pair into a `Char`-keyed dict (overwrite or append),
mirroring one step of Python dict-literal evaluation. -/
def charDictInsert (d : List (Char × ℕ)) (k : Char) (v : ℕ) : List (Char × ℕ) :=
  match d with
  | [] => [(k, v)]
  | (k', v') :: rest => if k' = k then (k, v) :: rest else (k', v') :: charDictInsert rest k v

/-- The dict that the `year_map` literal actually evaluates to: pairs are
inserted left to right, later duplicates overwriting earlier ones. -/
def year_map : List (Char × ℕ) :=
  yearMapPairs.foldl (fun d p => charDictInsert d p.1 p.2) []

/-- `year_map[c]` / `c in year_map`. -/
def yearLookup (c : Char) : Option ℕ :=
  (year_map.find? (fun p => p.1 = c)).map (·.2)

/-- The `country_codes` dict literal from `obd_data.py` lines 160–176
(distinct keys). -/
def country_codes : List (Char × String) := [
  ('1', "United States"),
  ('2', "Canada"),
  ('3', "Mexico"),
  ('4', "United States"),
  ('5', "United States"),
  ('J', "Japan"),
  ('K', "Korea"),
  ('L', "China"),
  ('S', "United Kingdom"),
  ('T', "Switzerland/Japan"),
  ('V', "France/Spain"),
  ('W', "Germany"),
  ('X', "Russia/USSR"),
  ('Y', "Belgium/Finland/Sweden"),
  ('Z', "Italy")]

/-- `country_codes[c]` / `c in country_codes`. -/
def countryLookup (c : Char) : Option String :=
  (country_codes.find? (fun p => p.1 = c)).map (·.2)

/-- The dictionary returned by `decode_vin`. -/
structure VinInfo where
  make : Option String
  model_year : Option ℕ
  country : Option String
  raw_vin : String
deriving DecidableEq, Repr

/-- `decode_vin` from `obd_data.py` lines 108–186.  The guard
`not vin or len(vin) != 17` collapses, for strings, to `len(vin) != 17`
(the empty string has length 0).  The make loop iterates over
`MANUFACTURER_CODES.items()` in insertion order and takes the first code with
`vin.startswith(code)`; the 2-character fallback then mirrors lines 135–136. -/
def decode_vin (vin : String) : VinInfo :=
  if vin.length ≠ 17 then
    ⟨Option.none, Option.none, Option.none, vin⟩
  else
    let wmi := vin.data.take 3
    let make₀ := (MANUFACTURER_CODES.find? (fun p => strStartsWith vin p.1)).map (·.2)
    let make := match make₀ with
      | some m => some m
      | Option.none => tblLookup MANUFACTURER_CODES (wmi.take 2)
    let year_char := vin.data.getD 9 ' '
    let model_year := yearLookup year_char
    let first_char := vin.data.getD 0 ' '
    let country := countryLookup first_char
    ⟨make, model_year, country, vin⟩

/-! ## Connection lifecycle (`obd_connection.py`) -/

/-- One connection attempt's interaction with the external adapter
(`initialize_obd_connection`, lines 32–91).  Each field is the result of one
call the attempt makes on the adapter, in source order: `obd.OBD(...)` may
raise (`ctorRaises`); `is_connected()` at line 45 (`isConnected1`);
`protocol_id()` truthiness at line 49 (`protocolId1`); `is_connected()` again
at line 57 (`isConnected2`); `set_protocol("6")` at line 60 (`setProtocolOk`);
the verification reads of `protocol_id()` and `protocol_name()` at line 62
(`protocolId2`, `protocolName2`); the `finally`-block reads of
`is_connected()` and `protocol_id()` at line 81 (`isConnectedF`,
`protocolIdF`); and `close()` at line 84 may raise (`closeRaises`, swallowed
by the code). -/
structure AttemptEnv where
  ctorRaises : Bool
  isConnected1 : Bool
  protocolId1 : Bool
  isConnected2 : Bool
  setProtocolOk : Bool
  protocolId2 : Bool
  protocolName2 : Bool
  isConnectedF : Bool
  protocolIdF : Bool
  closeRaises : Bool
deriving DecidableEq, Repr

/-- Whether the `try` body of one attempt reaches a `return True`
(lines 53 and 66): the constructor did not raise, `is_connected()` held, and
either a protocol was auto-detected or the manual `set_protocol("6")` path
confirmed both a protocol id and a protocol name. -/
def attemptSucceeds (e : AttemptEnv) : Bool :=
  !e.ctorRaises && e.isConnected1 &&
    (e.protocolId1 || (e.isConnected2 && e.setProtocolOk && e.protocolId2 && e.protocolName2))

/-- The `finally` block (lines 79–87): if the global connection is absent, or
present but not reading as connected-with-protocol, close it (a raising
`close()` is swallowed) and set the global to `None`; otherwise leave it. -/
def attemptCleanup (e : AttemptEnv) (conn : Option Unit) : Option Unit :=
  if conn.isSome && e.isConnectedF && e.protocolIdF then conn else Option.none

/-- One full iteration of the retry loop, acting on the global
`obd_connection` (`conn`): the constructor replaces the global unless it
raised; then the `finally` cleanup runs whether or not the attempt
succeeded. -/
def runAttempt (e : AttemptEnv) (conn : Option Unit) : Option Unit × Bool :=
  let conn1 := if e.ctorRaises then conn else some ()
  (attemptCleanup e conn1, attemptSucceeds e)

/-- `initialize_obd_connection` (lines 13–94): iterate the attempts
(`max_retries` = length of the environment list), returning success on the
first attempt that succeeds, and `(global, False)` after exhaustion.
`retry_delay` sleeps are unobservable here and elided.  The second component
is the function's return value; the first is the global `obd_connection`
afterwards, i.e. what `get_connection()` (lines 96–98) then returns. -/
def initialize_obd_connection (attempts : List AttemptEnv) (conn0 : Option Unit) :
    Option Unit × Bool :=
  match attempts with
  | [] => (conn0, false)
  | e :: rest =>
    let r := runAttempt e conn0
    if r.2 then (r.1, true) else initialize_obd_connection rest r.1

/-- The adapter interaction of one `close_connection` call
(`obd_connection.py` lines 100–125): `is_connected()` may raise
(`isConnectedRaises`) or answer (`isConnected`); `close()` may raise
(`closeRaises`). -/
structure CloseEnv where
  isConnectedRaises : Bool
  isConnected : Bool
  closeRaises : Bool
deriving DecidableEq, Repr

/-- `close_connection` (lines 100–125) acting on the global `obd_connection`:
returns the new global (always `None` once the function handled a present
object, via the `except`/`finally` blocks) and the boolean result. -/
def close_connection (conn : Option Unit) (e : CloseEnv) : Option Unit × Bool :=
  match conn with
  | Option.none => (Option.none, true)
  | some _ =>
    if e.isConnectedRaises then (Option.none, false)
    else if e.isConnected then
      if e.closeRaises then (Option.none, false) else (Option.none, true)
    else (Option.none, true)

/-! ## Python builtins used by `obd_data.py`

Exceptions are embedded as `Except String`; the carried string stands for the
Python exception type and is never inspected. -/

/-- Python truthiness (`bool(v)`); a pint quantity's truth value is its
magnitude's. -/
def pybool : PyVal → Bool
  | .none => false
  | .bool b => b
  | .num q => !(q = 0 : Bool)
  | .str s => !s.data.isEmpty
  | .tuple xs => !xs.isEmpty
  | .list xs => !xs.isEmpty
  | .dict kvs => !kvs.isEmpty
  | .quantity m _ => !(m = 0 : Bool)

/-- Truncation toward zero, the behaviour of Python `int()` on numbers. -/
def ratTrunc (q : ℚ) : ℤ :=
  if q < 0 then -⌊-q⌋ else ⌊q⌋

/-- Digits of a character list as a natural number, `none` on a non-digit.
The empty list yields `(0, 0)`: the second component counts the digits so
callers can reject an empty digit string. -/
def parseDigits (cs : List Char) : Option (ℕ × ℕ) :=
  cs.foldl
    (fun acc c =>
      match acc with
      | Option.none => Option.none
      | some (n, k) =>
        if 48 ≤ c.toNat ∧ c.toNat ≤ 57 then some (10 * n + (c.toNat - 48), k + 1)
        else Option.none)
    (some (0, 0))

/-- Python `int(s)` on a string: an optional sign followed by at least one
digit.  (Python also strips whitespace and accepts underscores; the backend
never feeds it such strings.) -/
def strToInt? (s : String) : Option ℤ :=
  let core (cs : List Char) : Option ℤ :=
    match parseDigits cs with
    | some (n, k) => if k = 0 then Option.none else some (n : ℤ)
    | Option.none => Option.none
  match s.data with
  | '-' :: cs => (core cs).map (fun n => -n)
  | '+' :: cs => core cs
  | cs => core cs

/-- Python `int(v)`: numbers truncate toward zero, booleans are 0/1, integer
strings parse, everything else raises. -/
def pyint : PyVal → Except String ℤ
  | .bool b => .ok (if b then 1 else 0)
  | .num q => .ok (ratTrunc q)
  | .str s =>
    match strToInt? s with
    | some n => .ok n
    | Option.none => .error "ValueError"
  | _ => .error "TypeError"

/-- Python `float(s)` on a string: optional sign, digits with an optional
fractional part.  (Exponents and surrounding whitespace, which Python also
accepts, do not occur in this backend's data.) -/
def parsePyFloat? (s : String) : Option ℚ :=
  let core (cs : List Char) : Option ℚ :=
    let ip := cs.takeWhile (fun c => !(c = '.' : Bool))
    let rest := cs.dropWhile (fun c => !(c = '.' : Bool))
    match rest with
    | [] =>
      match parseDigits ip with
      | some (n, k) => if k = 0 then Option.none else some (n : ℚ)
      | Option.none => Option.none
    | '.' :: fp =>
      match parseDigits ip, parseDigits fp with
      | some (ni, ki), some (nf, kf) =>
        if ki = 0 ∧ kf = 0 then Option.none
        else some ((ni : ℚ) + (nf : ℚ) / (10 : ℚ) ^ kf)
      | _, _ => Option.none
    | _ => Option.none
  match s.data with
  | '-' :: cs => (core cs).map (fun q => -q)
  | '+' :: cs => core cs
  | cs => core cs

/-- Python `float(v)`: numbers pass through, booleans are 0/1, numeric
strings parse, everything else raises (`float` of a pint quantity raises
unless dimensionless; the backend only reaches this call on snapshot values,
which are never quantities). -/
def pyfloat : PyVal → Except String ℚ
  | .num q => .ok q
  | .bool b => .ok (if b then 1 else 0)
  | .str s =>
    match parsePyFloat? s with
    | some q => .ok q
    | Option.none => .error "ValueError"
  | _ => .error "TypeError"

/-- Python `len(v)`: sized values answer, everything else raises. -/
def pylen : PyVal → Except String ℕ
  | .str s => .ok s.data.length
  | .tuple xs => .ok xs.length
  | .list xs => .ok xs.length
  | .dict kvs => .ok kvs.length
  | _ => .error "TypeError"

/-- Python iteration (`for x in v`): lists and tuples yield their elements,
strings their characters, dicts their keys; everything else raises. -/
def pyiter : PyVal → Except String (List PyVal)
  | .list xs => .ok xs
  | .tuple xs => .ok xs
  | .str s => .ok (s.data.map (fun c => PyVal.str ⟨[c]⟩))
  | .dict kvs => .ok (kvs.map (fun p => PyVal.str p.1))
  | _ => .error "TypeError"

/-- Python `v > 0` as used on `dtc_count`: numbers and booleans compare,
everything else raises `TypeError`. -/
def pygt0 : PyVal → Except String Bool
  | .num q => .ok (decide (0 < q))
  | .bool b => .ok b
  | _ => .error "TypeError"

/-- Round half to even, the behaviour of Python's `round` on exact values. -/
def roundHalfEven (x : ℚ) : ℤ :=
  if x - ⌊x⌋ < 1 / 2 then ⌊x⌋
  else if 1 / 2 < x - ⌊x⌋ then ⌊x⌋ + 1
  else if ⌊x⌋ % 2 = 0 then ⌊x⌋ else ⌊x⌋ + 1

/-- Python `round(q, 2)`: exact round-half-to-even at two decimal places. -/
def pyround2 (q : ℚ) : ℚ :=
  (roundHalfEven (q * 100) : ℚ) / 100

/-- Python `str(v)`.  Strings pass through unchanged — the only case any
theorem below depends on; the renderings of the other cases approximate
CPython's and are never relied upon. -/
def pystr : PyVal → String
  | .str s => s
  | .none => "None"
  | .bool b => if b then "True" else "False"
  | .num q => toString q
  | .quantity m us => toString m ++ " " ++ us
  | .tuple _ => "(...)"
  | .list _ => "[...]"
  | .dict _ => "\x7b...\x7d"

/-- `v is None`. -/
def isNoneVal : PyVal → Bool
  | .none => true
  | _ => false

/-- `hasattr(v, 'magnitude')`: only pint quantities carry a magnitude. -/
def isQuantity : PyVal → Bool
  | .quantity _ _ => true
  | _ => false

/-! ## Per-command processing (`obd_data.py` lines 188–278) -/

/-- The command names treated as string-typed at line 220. -/
def strTypedNames : List String :=
  ["FUEL_TYPE", "VIN", "ECU_NAME", "FUEL_STATUS", "OBD_COMPLIANCE"]

/-- The command names exempted from the null-value error flag at line 270. -/
def specialNoErrNames : List String :=
  ["STATUS", "GET_DTC", "FUEL_TYPE", "VIN", "ECU_NAME", "FUEL_STATUS", "OBD_COMPLIANCE"]

/-- `_process_individual_obd_response` (lines 188–236) on a non-null
response: `val` is `response.value`, `respUnit` is `str(response.unit)` when
`response.unit` is truthy.  Returns `(processed_value, unit_str)`. -/
def processResponse (val : PyVal) (respUnit : Option String) (name : String) :
    PyVal × Option String :=
  -- lines 208–213: pint quantities are rounded and their units taken
  let pu : PyVal × Option String :=
    match val with
    | .quantity m us => (PyVal.num (pyround2 m), some us)
    | _ => (val, respUnit)
  -- lines 216–230: special handling based on command name
  let pu : PyVal × Option String :=
    if name = "SPEED" then
      match pu.1 with
      | .num q => (PyVal.num (pyround2 (q * (621371 / 1000000))), some "mph")
      | .bool b =>
        (PyVal.num (pyround2 ((if b then 1 else 0) * (621371 / 1000000))), some "mph")
      | _ => pu
    else if name ∈ strTypedNames then (PyVal.str (pystr val), Option.none)
    else if name = "STATUS" then (val, Option.none)
    else if name = "GET_DTC" then (val, Option.none)
    else pu
  -- lines 233–234: default rounding for plain (non-quantity) floats
  match pu.1 with
  | .num q => if isQuantity val then pu else (PyVal.num (pyround2 q), pu.2)
  | _ => pu

/-- The interaction of one `query_obd_command` call with the adapter and the
scheduler: the query may raise inside the coroutine (`raises`), the whole
task's slot in the `asyncio.gather` result list may be an `Exception`
instance (`gatherExc`, skipped by the caller at lines 461–465), or a response
arrives with its `is_null()` flag, its `value` and its `unit`. -/
inductive CmdOutcome where
  | gatherExc
  | raises
  | responds (isNull : Bool) (value : PyVal) (unit : Option String)

/-- The tuple returned by `query_obd_command`
(`original_cmd_name_str, processed_value, unit_str, is_error_flag`). -/
structure CmdResult where
  name : String
  val : PyVal
  unit : Option String
  isError : Bool

/-- `query_obd_command` (lines 238–278): exceptions and null responses give
`(name, None, None, True)`; otherwise the processed response, with the error
flag set when the processed value is `None` for a non-special command. -/
def query_obd_command (name : String) (o : CmdOutcome) : CmdResult :=
  match o with
  | .gatherExc => ⟨name, PyVal.none, Option.none, true⟩
  | .raises => ⟨name, PyVal.none, Option.none, true⟩
  | .responds isNull v u =>
    if isNull then ⟨name, PyVal.none, Option.none, true⟩
    else
      let pu := processResponse v u name
      let isErr := isNoneVal pu.1 && (if name ∈ specialNoErrNames then false else true)
      ⟨name, pu.1, pu.2, isErr⟩

/-! ## The snapshot catalog (`obd_data.py` lines 292–373) -/

/-- Shorthands for the initial dict literal. -/
def nU (k u : String) : List (String × PyVal) :=
  [(k, PyVal.none), (k ++ "_unit", PyVal.str u)]

/-- The `data_to_send` dict literal (lines 292–373), in source order: every
output key, its `_unit` companion where declared, the `mil_on` / `dtc_count`
/ `dtcs` defaults, the decoded-vehicle fields and the initial `status`. -/
def initData : Snapshot :=
  nU "rpm" "rpm" ++ nU "speed" "mph" ++ nU "coolant_temp" "celsius" ++
  nU "throttle_pos" "%" ++ nU "fuel_level" "%" ++ nU "engine_load" "%" ++
  [("mil_on", PyVal.bool false), ("dtc_count", PyVal.num 0), ("dtcs", PyVal.list [])] ++
  nU "intake_temp" "celsius" ++ nU "maf" "grams/sec" ++ nU "fuel_pressure" "kPa" ++
  nU "fuel_rail_pressure" "kPa" ++ nU "fuel_rail_pressure_direct" "kPa" ++
  nU "fuel_injection_timing" "degrees" ++ nU "fuel_rate" "L/h" ++
  nU "short_fuel_trim_1" "%" ++ nU "long_fuel_trim_1" "%" ++
  nU "short_fuel_trim_2" "%" ++ nU "long_fuel_trim_2" "%" ++
  [("fuel_type", PyVal.none)] ++
  nU "ethanol_percent" "%" ++ nU "evap_vapor_pressure" "Pa" ++
  nU "o2_sensor_1_voltage" "V" ++ nU "o2_sensor_2_voltage" "V" ++
  nU "catalyst_temp_b1s1" "celsius" ++ nU "catalyst_temp_b2s1" "celsius" ++
  nU "egr_error" "%" ++ nU "egr_commanded" "%" ++ nU "evap_vapor_pressure_abs" "kPa" ++
  nU "ambient_air_temp" "celsius" ++ nU "engine_oil_temp" "celsius" ++
  nU "fuel_temp" "celsius" ++
  nU "timing_advance" "degrees" ++ nU "abs_throttle_pos" "%" ++
  nU "rel_throttle_pos" "%" ++ nU "accel_pedal_pos" "%" ++
  nU "commanded_throttle" "%" ++ nU "manifold_pressure" "kPa" ++
  nU "baro_pressure" "kPa" ++ nU "abs_load" "%" ++ nU "rel_load" "%" ++
  nU "distance_with_mil" "km" ++ nU "distance_since_codes_cleared" "km" ++
  nU "runtime_since_engine_start" "seconds" ++ nU "time_since_codes_cleared" "minutes" ++
  nU "control_module_voltage" "V" ++ nU "hybrid_battery_remaining" "%" ++
  nU "engine_friction_percent" "%" ++ nU "driver_demand_torque" "%" ++
  nU "actual_engine_torque" "%" ++ nU "engine_ref_torque" "Nm" ++
  nU "boost_pressure" "kPa" ++ nU "charge_air_temp" "celsius" ++
  [("vin", PyVal.none), ("ecu_name", PyVal.none), ("fuel_system_status", PyVal.none),
   ("obd_standards", PyVal.none),
   ("vehicle_make", PyVal.none), ("vehicle_year", PyVal.none), ("vehicle_country", PyVal.none),
   ("status", PyVal.str "OK")]

/-- The `output_key_map` dict literal (lines 385–421), command name to
snapshot key.  (Its `VIN` entry is shadowed by the dedicated `VIN` branch at
line 484, exactly as in the source.) -/
def output_key_map : List (String × String) := [
  ("RPM", "rpm"), ("SPEED", "speed"), ("COOLANT_TEMP", "coolant_temp"),
  ("THROTTLE_POS", "throttle_pos"), ("FUEL_LEVEL", "fuel_level"),
  ("ENGINE_LOAD", "engine_load"),
  ("INTAKE_TEMP", "intake_temp"), ("MAF", "maf"), ("FUEL_PRESSURE", "fuel_pressure"),
  ("FUEL_RAIL_PRESSURE_ABS", "fuel_rail_pressure"),
  ("FUEL_RAIL_PRESSURE_DIRECT", "fuel_rail_pressure_direct"),
  ("FUEL_INJECTION_TIMING", "fuel_injection_timing"), ("FUEL_RATE", "fuel_rate"),
  ("SHORT_FUEL_TRIM_1", "short_fuel_trim_1"), ("LONG_FUEL_TRIM_1", "long_fuel_trim_1"),
  ("SHORT_FUEL_TRIM_2", "short_fuel_trim_2"), ("LONG_FUEL_TRIM_2", "long_fuel_trim_2"),
  ("FUEL_TYPE", "fuel_type"), ("ETHANOL_PERCENT", "ethanol_percent"),
  ("EVAP_VAPOR_PRESSURE", "evap_vapor_pressure"),
  ("O2_S1_WR_VOLTAGE", "o2_sensor_1_voltage"), ("O2_S2_WR_VOLTAGE", "o2_sensor_2_voltage"),
  ("CATALYST_TEMP_B1S1", "catalyst_temp_b1s1"), ("CATALYST_TEMP_B2S1", "catalyst_temp_b2s1"),
  ("EGR_ERROR", "egr_error"), ("COMMANDED_EGR", "egr_commanded"),
  ("EVAP_VAPOR_PRESSURE_ABS", "evap_vapor_pressure_abs"),
  ("AMBIANT_AIR_TEMP", "ambient_air_temp"),
  ("OIL_TEMP", "engine_oil_temp"), ("FUEL_TEMP", "fuel_temp"),
  ("TIMING_ADVANCE", "timing_advance"), ("ABSOLUTE_THROTTLE_POS", "abs_throttle_pos"),
  ("RELATIVE_THROTTLE_POS", "rel_throttle_pos"), ("ACCELERATOR_POS_D", "accel_pedal_pos"),
  ("COMMANDED_THROTTLE_ACTUATOR", "commanded_throttle"),
  ("INTAKE_PRESSURE", "manifold_pressure"), ("BAROMETRIC_PRESSURE", "baro_pressure"),
  ("ABSOLUTE_LOAD", "abs_load"), ("RELATIVE_LOAD", "rel_load"),
  ("DISTANCE_W_MIL", "distance_with_mil"),
  ("DISTANCE_SINCE_DTC_CLEAR", "distance_since_codes_cleared"),
  ("RUN_TIME", "runtime_since_engine_start"),
  ("TIME_SINCE_DTC_CLEARED", "time_since_codes_cleared"),
  ("CONTROL_MODULE_VOLTAGE", "control_module_voltage"),
  ("HYBRID_BATTERY_REMAINING", "hybrid_battery_remaining"),
  ("ENGINE_FRICTION_PERCENT", "engine_friction_percent"),
  ("DRIVER_DEMAND_ENGINE_TORQUE", "driver_demand_torque"),
  ("ACTUAL_ENGINE_TORQUE", "actual_engine_torque"),
  ("ENGINE_REFERENCE_TORQUE", "engine_ref_torque"),
  ("CHARGE_AIR_TEMP", "charge_air_temp"),
  ("VIN", "vin"), ("ECU_NAME", "ecu_name"), ("FUEL_STATUS", "fuel_system_status"),
  ("OBD_COMPLIANCE", "obd_standards")]

/-- `output_key_map.get(name)` (distinct keys, so the association list is the
dict). -/
def keyLookup (name : String) : Option String :=
  (output_key_map.find? (fun p => p.1 = name)).map (·.2)

/-- `desired_command_names_for_gather` (lines 426–442), in source order;
`STATUS` is last, and `GET_DTC` is deliberately absent (handled
conditionally after the fan-out). -/
def mainCmdNames : List String := [
  "RPM", "SPEED", "COOLANT_TEMP", "THROTTLE_POS", "FUEL_LEVEL", "ENGINE_LOAD",
  "INTAKE_TEMP", "MAF", "FUEL_PRESSURE", "FUEL_RAIL_PRESSURE_ABS",
  "FUEL_RAIL_PRESSURE_DIRECT", "FUEL_INJECTION_TIMING", "FUEL_RATE",
  "SHORT_FUEL_TRIM_1", "LONG_FUEL_TRIM_1", "SHORT_FUEL_TRIM_2", "LONG_FUEL_TRIM_2",
  "FUEL_TYPE", "ETHANOL_PERCENT", "EVAP_VAPOR_PRESSURE",
  "O2_S1_WR_VOLTAGE", "O2_S2_WR_VOLTAGE", "CATALYST_TEMP_B1S1", "CATALYST_TEMP_B2S1",
  "EGR_ERROR", "COMMANDED_EGR", "EVAP_VAPOR_PRESSURE_ABS", "AMBIANT_AIR_TEMP",
  "OIL_TEMP", "FUEL_TEMP", "TIMING_ADVANCE", "ABSOLUTE_THROTTLE_POS",
  "RELATIVE_THROTTLE_POS", "ACCELERATOR_POS_D", "COMMANDED_THROTTLE_ACTUATOR",
  "INTAKE_PRESSURE", "BAROMETRIC_PRESSURE", "ABSOLUTE_LOAD", "RELATIVE_LOAD",
  "DISTANCE_W_MIL", "DISTANCE_SINCE_DTC_CLEAR", "RUN_TIME", "TIME_SINCE_DTC_CLEARED",
  "CONTROL_MODULE_VOLTAGE", "HYBRID_BATTERY_REMAINING", "ENGINE_FRICTION_PERCENT",
  "DRIVER_DEMAND_ENGINE_TORQUE", "ACTUAL_ENGINE_TORQUE", "ENGINE_REFERENCE_TORQUE",
  "CHARGE_AIR_TEMP",
  "VIN", "ECU_NAME", "FUEL_STATUS", "OBD_COMPLIANCE", "STATUS"]

/-! ## The snapshot producer (`obd_data.py` lines 280–553) -/

/-- The connection checks `query_obd_data` makes at lines 375–381: whether
`get_connection()` is non-`None`, whether `is_connected()` answers true, and
whether `protocol_id()` is truthy. -/
structure ConnEnv where
  present : Bool
  isConnected : Bool
  hasProtocol : Bool
deriving DecidableEq, Repr

/-- The environment of one `query_obd_data` cycle: the connection checks, the
`hasattr(obd.commands, name)` availability of each command (line 448 and
line 508), the outcome of each gathered command's query, and the outcome of
the conditional `GET_DTC` query. -/
structure Env where
  conn : ConnEnv
  hasCmd : String → Bool
  outcome : String → CmdOutcome
  dtcOutcome : CmdOutcome

/-- The `STATUS` branch of the result loop (lines 476–483): well-shaped
tuples have `bool(val[0])` and `int(val[1])` extracted (the latter may raise,
after `mil_on` was already written); everything else degrades to
`False` / `0`.  An error carries the dict as mutated so far. -/
def statusStep (d : Snapshot) (val : PyVal) : Except (Snapshot × String) Snapshot :=
  match val with
  | .tuple xs =>
    if 2 ≤ xs.length then
      let d1 := dictSet d "mil_on" (PyVal.bool (pybool (xs.getD 0 PyVal.none)))
      match pyint (xs.getD 1 PyVal.none) with
      | .error e => .error (d1, e)
      | .ok k => .ok (dictSet d1 "dtc_count" (PyVal.num k))
    else .ok (dictSet (dictSet d "mil_on" (PyVal.bool false)) "dtc_count" (PyVal.num 0))
  | _ => .ok (dictSet (dictSet d "mil_on" (PyVal.bool false)) "dtc_count" (PyVal.num 0))

/-- Embed an optional string / year as the Python value assigned to the
decoded-vehicle fields. -/
def optStrVal : Option String → PyVal
  | some s => PyVal.str s
  | Option.none => PyVal.none

/-- See `optStrVal`. -/
def optNatVal : Option ℕ → PyVal
  | some n => PyVal.num n
  | Option.none => PyVal.none

/-- The `VIN` branch of the result loop (lines 484–491): store the value,
and decode it when truthy of length 17.  `query_obd_command` only ever hands
this branch a string or `None`; a sized non-string would make `decode_vin`
raise (`vin[:3].startswith` on a non-string), embedded as the error case. -/
def vinStep (d : Snapshot) (val : PyVal) : Except (Snapshot × String) Snapshot :=
  let d1 := dictSet d "vin" val
  if pybool val then
    match pylen val with
    | .error e => .error (d1, e)
    | .ok l =>
      if l = 17 then
        match val with
        | .str s =>
          let vi := decode_vin s
          .ok (dictSet (dictSet (dictSet d1 "vehicle_make" (optStrVal vi.make))
                "vehicle_year" (optNatVal vi.model_year))
                "vehicle_country" (optStrVal vi.country))
        | _ => .error (d1, "AttributeError")
      else .ok d1
  else .ok d1

/-- The standard branch of the result loop (lines 492–503): assign the value
under the mapped key and, when the unit string is truthy, the unit under the
`_unit` companion key.  (The `elif` at lines 500–501 has an unsatisfiable
condition and does nothing.) -/
def mappedStep (d : Snapshot) (key : String) (val : PyVal) (unit : Option String) :
    Snapshot :=
  let d1 := dictSet d key val
  match unit with
  | some u => if u = "" then d1 else dictSet d1 (key ++ "_unit") (PyVal.str u)
  | Option.none => d1

/-- The dispatch on the command name inside the result loop (lines 475–503):
the `STATUS` and `VIN` branches come first, then the `output_key_map`
assignment, and names without a mapping are skipped with a warning. -/
def mainDispatch (d : Snapshot) (name : String) (r : CmdResult) :
    Except (Snapshot × String) Snapshot :=
  if name = "STATUS" then statusStep d r.val
  else if name = "VIN" then vinStep d r.val
  else
    match keyLookup name with
    | some key => .ok (mappedStep d key r.val r.unit)
    | Option.none => .ok d

/-- One iteration of the result loop (lines 460–503): `Exception` entries in
the gather result are skipped; otherwise the command's result tuple is
dispatched on its name. -/
def mainStep (env : Env) (d : Snapshot) (name : String) :
    Except (Snapshot × String) Snapshot :=
  match env.outcome name with
  | .gatherExc => .ok d
  | o => mainDispatch d name (query_obd_command name o)

/-- The result loop over the gathered commands, threading the dict and
propagating the first uncaught exception together with the dict state at the
raise point (Python mutates `data_to_send` in place). -/
def runSteps (env : Env) : List String → Snapshot → Except (Snapshot × String) Snapshot
  | [], d => .ok d
  | n :: rest, d =>
    match mainStep env d n with
    | .error e => .error e
    | .ok d' => runSteps env rest d'

/-- Lines 444–503: only commands present on `obd.commands` are gathered, in
source order, then the result loop runs. -/
def mainPhase (env : Env) (d : Snapshot) : Except (Snapshot × String) Snapshot :=
  runSteps env (mainCmdNames.filter env.hasCmd) d

/-- One entry of the DTC list comprehension (line 516): keep exactly the
2-tuples, as `{"code": ..., "desc": ...}` dicts. -/
def mkDtcEntry : PyVal → Option PyVal
  | .tuple [a, b] => some (PyVal.dict [("code", a), ("desc", b)])
  | _ => Option.none

/-- The conditional trouble-code query (lines 505–522), issued after the main
fan-out.  The second component counts `GET_DTC` queries issued (0 or 1).  An
error carries the dict state and the count at the raise point. -/
def dtcPhase (env : Env) (d : Snapshot) :
    Except (Snapshot × String × ℕ) (Snapshot × ℕ) :=
  if pybool ((dictLookup d "mil_on").getD PyVal.none) then
    match pygt0 ((dictLookup d "dtc_count").getD (PyVal.num 0)) with
    | .error e => .error (d, e, 0)
    | .ok false => .ok (d, 0)
    | .ok true =>
      if env.hasCmd "GET_DTC" then
        let r := query_obd_command "GET_DTC" env.dtcOutcome
        if !r.isError && !(isNoneVal r.val) then
          match pyiter r.val with
          | .error e => .error (d, e, 1)
          | .ok items => .ok (dictSet d "dtcs" (PyVal.list (items.filterMap mkDtcEntry)), 1)
        else .ok (d, 1)
      else .ok (d, 0)
  else .ok (d, 0)

/-- The boost-pressure derivation (lines 524–544): when both inputs are
non-`None`, `float` conversion failures are caught locally and yield `None`;
otherwise the rounded difference is stored. -/
def boostPhase (d : Snapshot) : Snapshot :=
  let ip := (dictLookup d "manifold_pressure").getD PyVal.none
  let bp := (dictLookup d "baro_pressure").getD PyVal.none
  if !(isNoneVal ip) && !(isNoneVal bp) then
    match pyfloat ip, pyfloat bp with
    | .ok a, .ok b => dictSet d "boost_pressure" (PyVal.num (pyround2 (a - b)))
    | _, _ => dictSet d "boost_pressure" PyVal.none
  else dictSet d "boost_pressure" PyVal.none

/-- The body of the `try` block (lines 383–546): the gather loop, the
conditional DTC query, the boost derivation, and the final `status = "OK"`.
Errors carry the mutated dict, the exception and the DTC-query count. -/
def coreQuery (env : Env) : Except (Snapshot × String × ℕ) (Snapshot × ℕ) :=
  match mainPhase env initData with
  | .error (d, e) => .error (d, e, 0)
  | .ok d =>
    match dtcPhase env d with
    | .error e => .error e
    | .ok (d1, n) => .ok (dictSet (boostPhase d1) "status" (PyVal.str "OK"), n)

/-- `query_obd_data` (lines 280–553): the disconnected / no-protocol early
returns, then the `try` body with its `except` clause stamping
`OBD_QUERY_ERROR` and `error_details` onto the partially-updated dict.  The
second component counts trouble-code queries issued during the cycle. -/
def query_obd_data (env : Env) : Snapshot × ℕ :=
  if !(env.conn.present && env.conn.isConnected) then
    (dictSet initData "status" (PyVal.str "OBD_DISCONNECTED"), 0)
  else if !env.conn.hasProtocol then
    (dictSet initData "status" (PyVal.str "OBD_NO_PROTOCOL"), 0)
  else
    match coreQuery env with
    | .ok (d, n) => (d, n)
    | .error (d, e, n) =>
      (dictSet (dictSet d "status" (PyVal.str "OBD_QUERY_ERROR"))
        "error_details" (PyVal.str e), n)

/-- Whether an `Except` computation succeeded. -/
def exceptIsOk : Except (Snapshot × String × ℕ) (Snapshot × ℕ) → Bool
  | .ok _ => true
  | .error _ => false

/-! ## Auxiliary notions for the statements and proofs -/

/-- The dict as left behind by one result-loop step, whether it returned
normally or raised. -/
def stepSnap : Except (Snapshot × String) Snapshot → Snapshot
  | .ok d => d
  | .error (d, _) => d

/-- Whether a result-loop step (or a run of them) returned normally. -/
def stepOk : Except (Snapshot × String) Snapshot → Bool
  | .ok _ => true
  | .error _ => false

/-- A snapshot obtained from `d` by a (possibly empty) chain of `dictSet`
updates — the only way any phase of the cycle ever modifies the dict. -/
inductive DictExt : Snapshot → Snapshot → Prop
  | refl (d : Snapshot) : DictExt d d
  | set {d d' : Snapshot} (k : String) (v : PyVal) (h : DictExt d d') :
      DictExt d (dictSet d' k v)

/-- The number of trouble-code queries a DTC-phase (or `try`-body) result
records. -/
def dtcCount : Except (Snapshot × String × ℕ) (Snapshot × ℕ) → ℕ
  | .ok (_, n) => n
  | .error (_, _, n) => n

/-- The dict as left behind by the DTC phase or the whole `try` body, whether
it returned normally or raised. -/
def dtcSnap : Except (Snapshot × String × ℕ) (Snapshot × ℕ) → Snapshot
  | .ok (d, _) => d
  | .error (d, _, _) => d

/-- The snapshot keys one result-loop iteration for `name` can assign. -/
def writesOf (name : String) : List String :=
  if name = "STATUS" then ["mil_on", "dtc_count"]
  else if name = "VIN" then ["vin", "vehicle_make", "vehicle_year", "vehicle_country"]
  else
    match keyLookup name with
    | some key => [key, key ++ "_unit"]
    | Option.none => []

/-- The mapped snapshot key of a gathered command. -/
def mapKey (name : String) : String :=
  (keyLookup name).getD ""

/-- The processed value a command receives for a non-null pint-quantity
response of magnitude `m`: the magnitude rounded to 2 decimals, with speed
additionally converted km/h → mph and re-rounded. -/
def expectedVal (name : String) (m : ℚ) : ℚ :=
  if name = "SPEED" then pyround2 (pyround2 m * (621371 / 1000000)) else pyround2 m

/-- The unit string such a response ends up with. -/
def expectedUnit (name us : String) : String :=
  if name = "SPEED" then "mph" else us

/-- A `STATUS` value that cannot make `int(val[1])` raise: either it is not a
tuple of length ≥ 2 (and degrades), or its second slot converts. -/
def statusBenign (val : PyVal) : Prop :=
  ∀ xs, val = PyVal.tuple xs → 2 ≤ xs.length → ∃ k, pyint (xs.getD 1 PyVal.none) = .ok k

/-- A failed parameter query, in the sense of claim C4: the query raised
(covering exceptions and timeouts) or the adapter returned a null response. -/
def failedOutcome (o : CmdOutcome) : Prop :=
  o = .raises ∨ ∃ v u, o = .responds true v u

/-- The gathered command names that the fan-out treats specially (dedicated
branches or string coercion); the remaining ones all store plain processed
values under their mapped key. -/
def exceptionalNames : List String :=
  ["STATUS", "VIN", "FUEL_TYPE", "ECU_NAME", "FUEL_STATUS", "OBD_COMPLIANCE"]

/-! ### Concrete environments used as witnesses and counterexamples -/

/-- An adapter answering every query with a null response. -/
def nullOutcome : CmdOutcome := .responds true PyVal.none Option.none

/-- A ready connection: present, connected, protocol negotiated. -/
def readyConn : ConnEnv := ⟨true, true, true⟩

/-- A ready cycle in which every single parameter query returns null. -/
def allNullEnv : Env := ⟨readyConn, fun _ => true, fun _ => nullOutcome, nullOutcome⟩

/-- A ready cycle whose `STATUS` reports the MIL on with 2 stored codes, and
whose `GET_DTC` answers one code. -/
def dtcEnvW : Env :=
  ⟨readyConn, fun _ => true,
   fun n =>
     if n = "STATUS" then
       .responds false (PyVal.tuple [PyVal.bool true, PyVal.num 2, PyVal.str "spark"])
         Option.none
     else nullOutcome,
   .responds false
     (PyVal.list [PyVal.tuple [PyVal.str "P0301", PyVal.str "Cylinder 1 Misfire Detected"]])
     Option.none⟩

/-- A ready cycle whose `STATUS` reports a MIL flag but a non-numeric DTC
count, making `int(val[1])` raise. -/
def statusBadEnv : Env :=
  ⟨readyConn, fun _ => true,
   fun n =>
     if n = "STATUS" then
       .responds false (PyVal.tuple [PyVal.bool true, PyVal.str "x"]) Option.none
     else nullOutcome,
   nullOutcome⟩

/-- A ready cycle whose `STATUS` answers with a string instead of a tuple. -/
def statusOddEnv : Env :=
  ⟨readyConn, fun _ => true,
   fun n =>
     if n = "STATUS" then .responds false (PyVal.str "NOT A TUPLE") Option.none
     else nullOutcome,
   nullOutcome⟩

/-- A ready cycle answering only the two pressure queries (120 kPa manifold,
100 kPa barometric). -/
def boostEnvW : Env :=
  ⟨readyConn, fun _ => true,
   fun n =>
     if n = "INTAKE_PRESSURE" then
       .responds false (PyVal.quantity 120 "kilopascal") Option.none
     else if n = "BAROMETRIC_PRESSURE" then
       .responds false (PyVal.quantity 100 "kilopascal") Option.none
     else nullOutcome,
   nullOutcome⟩

/-- A ready cycle in which exactly the `RPM` query raises and every other
query succeeds (quantities of magnitude 100, strings for the string-typed
commands, a clean `STATUS`, a valid VIN). -/
def oneFailEnv : Env :=
  ⟨readyConn, fun _ => true,
   fun n =>
     if n = "RPM" then .raises
     else if n = "STATUS" then
       .responds false (PyVal.tuple [PyVal.bool false, PyVal.num 0, PyVal.str "spark"])
         Option.none
     else if n = "VIN" then .responds false (PyVal.str "1G1ZT53826F109149") Option.none
     else if n = "FUEL_TYPE" then .responds false (PyVal.str "Gasoline") Option.none
     else if n = "ECU_NAME" then .responds false (PyVal.str "ECM") Option.none
     else if n = "FUEL_STATUS" then .responds false (PyVal.str "Closed loop") Option.none
     else if n = "OBD_COMPLIANCE" then .responds false (PyVal.str "OBD-II") Option.none
     else .responds false (PyVal.quantity 100 "percent") Option.none,
   nullOutcome⟩

/-! ## Theorems -/

/-! ### Dictionary laws -/

theorem dictLookup_dictSet_self (d : Snapshot) (k : String) (v : PyVal) :
    dictLookup (dictSet d k v) k = some v := by
  induction d with
  | nil => simp [dictSet, dictLookup]
  | cons p rest ih =>
    obtain ⟨k', v'⟩ := p
    by_cases h : k' = k
    · subst h
      simp [dictSet, dictLookup]
    · simp [dictSet, dictLookup, h, ih]

theorem dictLookup_dictSet_ne (d : Snapshot) (k k' : String) (v : PyVal) (h : k' ≠ k) :
    dictLookup (dictSet d k' v) k = dictLookup d k := by
  induction d with
  | nil => simp [dictSet, dictLookup, h]
  | cons p rest ih =>
    obtain ⟨k₀, v₀⟩ := p
    by_cases h0 : k₀ = k'
    · subst h0
      simp [dictSet, dictLookup, h]
    · simp only [dictSet, if_neg h0]
      by_cases h1 : k₀ = k
      · simp [dictLookup, h1]
      · simp [dictLookup, h1, ih]

theorem hasKey_dictSet (d : Snapshot) (k k' : String) (v : PyVal)
    (h : hasKey d k = true) : hasKey (dictSet d k' v) k = true := by
  by_cases hk : k' = k
  · subst hk
    simp [hasKey, dictLookup_dictSet_self]
  · rwa [hasKey, dictLookup_dictSet_ne _ _ _ _ hk]

theorem DictExt.hasKey_mono {d d' : Snapshot} (h : DictExt d d') {k : String}
    (hk : hasKey d k = true) : hasKey d' k = true := by
  induction h with
  | refl => exact hk
  | set k' v' _ ih => exact hasKey_dictSet _ _ _ _ ih

theorem DictExt.trans {d₁ d₂ d₃ : Snapshot} (h1 : DictExt d₁ d₂) (h2 : DictExt d₂ d₃) :
    DictExt d₁ d₃ := by
  induction h2 with
  | refl => exact h1
  | set k v _ ih => exact .set k v ih

theorem key_ne_unit (key : String) : key ++ "_unit" ≠ key := by
  intro h
  have hlen := congrArg String.length h
  have h5 : ("_unit" : String).length = 5 := rfl
  rw [String.length_append, h5] at hlen
  omega

/-! ### Per-step shape lemmas -/

theorem statusStep_ext (d : Snapshot) (val : PyVal) :
    DictExt d (stepSnap (statusStep d val)) := by
  cases val
  case tuple xs =>
    simp only [statusStep]
    split
    · cases hp : pyint (xs.getD 1 PyVal.none) with
      | error e => simp only [stepSnap] ; exact .set _ _ (.refl d)
      | ok k => simp only [stepSnap] ; exact .set _ _ (.set _ _ (.refl d))
    · exact .set _ _ (.set _ _ (.refl d))
  all_goals exact .set _ _ (.set _ _ (.refl d))

theorem vinStep_ext (d : Snapshot) (val : PyVal) :
    DictExt d (stepSnap (vinStep d val)) := by
  unfold vinStep
  dsimp only
  split
  · cases hp : pylen val with
    | error e => exact .set _ _ (.refl d)
    | ok l =>
      dsimp only
      split
      · cases val
        case str s => exact .set _ _ (.set _ _ (.set _ _ (.set _ _ (.refl d))))
        all_goals exact .set _ _ (.refl d)
      · exact .set _ _ (.refl d)
  · exact .set _ _ (.refl d)

theorem mappedStep_ext (d : Snapshot) (key : String) (val : PyVal) (unit : Option String) :
    DictExt d (mappedStep d key val unit) := by
  unfold mappedStep
  cases unit with
  | none => exact .set _ _ (.refl d)
  | some u =>
    dsimp only
    split
    · exact .set _ _ (.refl d)
    · exact .set _ _ (.set _ _ (.refl d))

theorem mainDispatch_ext (d : Snapshot) (name : String) (r : CmdResult) :
    DictExt d (stepSnap (mainDispatch d name r)) := by
  unfold mainDispatch
  split
  · exact statusStep_ext _ _
  · split
    · exact vinStep_ext _ _
    · split
      · simp only [stepSnap]
        exact mappedStep_ext _ _ _ _
      · exact .refl d

theorem mainStep_ext (env : Env) (d : Snapshot) (name : String) :
    DictExt d (stepSnap (mainStep env d name)) := by
  unfold mainStep
  cases env.outcome name with
  | gatherExc => exact .refl d
  | raises => exact mainDispatch_ext _ _ _
  | responds isNull v u => exact mainDispatch_ext _ _ _

/-! ### Per-step frame lemmas -/

theorem statusStep_frame (d : Snapshot) (val : PyVal) (k : String)
    (h1 : k ≠ "mil_on") (h2 : k ≠ "dtc_count") :
    dictLookup (stepSnap (statusStep d val)) k = dictLookup d k := by
  cases val
  case tuple xs =>
    simp only [statusStep]
    split
    · cases hp : pyint (xs.getD 1 PyVal.none) with
      | error e =>
        simp only [stepSnap]
        rw [dictLookup_dictSet_ne _ _ _ _ (Ne.symm h1)]
      | ok kk =>
        simp only [stepSnap]
        rw [dictLookup_dictSet_ne _ _ _ _ (Ne.symm h2),
          dictLookup_dictSet_ne _ _ _ _ (Ne.symm h1)]
    · simp only [stepSnap]
      rw [dictLookup_dictSet_ne _ _ _ _ (Ne.symm h2),
        dictLookup_dictSet_ne _ _ _ _ (Ne.symm h1)]
  all_goals
    simp only [statusStep, stepSnap]
    rw [dictLookup_dictSet_ne _ _ _ _ (Ne.symm h2),
      dictLookup_dictSet_ne _ _ _ _ (Ne.symm h1)]

theorem vinStep_frame (d : Snapshot) (val : PyVal) (k : String)
    (h1 : k ≠ "vin") (h2 : k ≠ "vehicle_make")
    (h3 : k ≠ "vehicle_year") (h4 : k ≠ "vehicle_country") :
    dictLookup (stepSnap (vinStep d val)) k = dictLookup d k := by
  unfold vinStep
  dsimp only
  split
  · cases hp : pylen val with
    | error e =>
      simp only [stepSnap]
      rw [dictLookup_dictSet_ne _ _ _ _ (Ne.symm h1)]
    | ok l =>
      dsimp only
      split
      · cases val
        case str s =>
          simp only [stepSnap]
          rw [dictLookup_dictSet_ne _ _ _ _ (Ne.symm h4),
            dictLookup_dictSet_ne _ _ _ _ (Ne.symm h3),
            dictLookup_dictSet_ne _ _ _ _ (Ne.symm h2),
            dictLookup_dictSet_ne _ _ _ _ (Ne.symm h1)]
        all_goals
          simp only [stepSnap]
          rw [dictLookup_dictSet_ne _ _ _ _ (Ne.symm h1)]
      · simp only [stepSnap]
        rw [dictLookup_dictSet_ne _ _ _ _ (Ne.symm h1)]
  · simp only [stepSnap]
    rw [dictLookup_dictSet_ne _ _ _ _ (Ne.symm h1)]

theorem mappedStep_frame (d : Snapshot) (key : String) (val : PyVal)
    (unit : Option String) (k : String) (h1 : k ≠ key) (h2 : k ≠ key ++ "_unit") :
    dictLookup (mappedStep d key val unit) k = dictLookup d k := by
  unfold mappedStep
  cases unit with
  | none => exact dictLookup_dictSet_ne _ _ _ _ (Ne.symm h1)
  | some u =>
    dsimp only
    split
    · exact dictLookup_dictSet_ne _ _ _ _ (Ne.symm h1)
    · rw [dictLookup_dictSet_ne _ _ _ _ (Ne.symm h2),
        dictLookup_dictSet_ne _ _ _ _ (Ne.symm h1)]

theorem mainDispatch_frame (d : Snapshot) (name k : String) (r : CmdResult)
    (hk : k ∉ writesOf name) :
    dictLookup (stepSnap (mainDispatch d name r)) k = dictLookup d k := by
  unfold mainDispatch
  split
  · rename_i hs
    rw [writesOf, if_pos hs] at hk
    simp only [List.mem_cons, List.not_mem_nil] at hk
    push_neg at hk
    exact statusStep_frame _ _ _ hk.1 hk.2.1
  · rename_i hs
    split
    · rename_i hv
      rw [writesOf, if_neg hs, if_pos hv] at hk
      simp only [List.mem_cons, List.not_mem_nil] at hk
      push_neg at hk
      exact vinStep_frame _ _ _ hk.1 hk.2.1 hk.2.2.1 hk.2.2.2.1
    · rename_i hv
      split
      · rename_i key hkey
        rw [writesOf, if_neg hs, if_neg hv, hkey] at hk
        simp only [List.mem_cons, List.not_mem_nil] at hk
        push_neg at hk
        simp only [stepSnap]
        exact mappedStep_frame _ _ _ _ _ hk.1 hk.2.1
      · rfl

theorem mainStep_frame (env : Env) (d : Snapshot) (name k : String)
    (hk : k ∉ writesOf name) :
    dictLookup (stepSnap (mainStep env d name)) k = dictLookup d k := by
  unfold mainStep
  cases env.outcome name with
  | gatherExc => rfl
  | raises => exact mainDispatch_frame _ _ _ _ hk
  | responds isNull v u => exact mainDispatch_frame _ _ _ _ hk

/-! ### Per-step value and success lemmas -/

theorem mappedStep_lookup_key (d : Snapshot) (key : String) (val : PyVal)
    (unit : Option String) :
    dictLookup (mappedStep d key val unit) key = some val := by
  unfold mappedStep
  cases unit with
  | none => exact dictLookup_dictSet_self _ _ _
  | some u =>
    dsimp only
    split
    · exact dictLookup_dictSet_self _ _ _
    · rw [dictLookup_dictSet_ne _ _ _ _ (key_ne_unit key), dictLookup_dictSet_self]

theorem mainDispatch_mapped (d : Snapshot) (name key : String) (r : CmdResult)
    (hS : name ≠ "STATUS") (hV : name ≠ "VIN") (hkey : keyLookup name = some key) :
    mainDispatch d name r = .ok (mappedStep d key r.val r.unit) := by
  unfold mainDispatch
  rw [if_neg hS, if_neg hV, hkey]

theorem mainStep_out (env : Env) (d : Snapshot) (name : String) (o : CmdOutcome)
    (ho : env.outcome name = o) (hg : o ≠ .gatherExc) :
    mainStep env d name = mainDispatch d name (query_obd_command name o) := by
  unfold mainStep
  rw [ho]
  cases o with
  | gatherExc => exact absurd rfl hg
  | raises => rfl
  | responds isNull v u => rfl

theorem statusStep_ok (d : Snapshot) (val : PyVal) (h : statusBenign val) :
    stepOk (statusStep d val) = true := by
  cases val
  case tuple xs =>
    simp only [statusStep]
    split
    · rename_i h2
      obtain ⟨kk, hk⟩ := h xs rfl h2
      rw [hk]
      rfl
    · rfl
  all_goals rfl

theorem query_vin_shape (o : CmdOutcome) :
    (query_obd_command "VIN" o).val = PyVal.none ∨
    ∃ s, (query_obd_command "VIN" o).val = PyVal.str s := by
  cases o with
  | gatherExc => exact .inl rfl
  | raises => exact .inl rfl
  | responds isNull v u =>
    cases isNull with
    | true => exact .inl rfl
    | false =>
      right
      refine ⟨pystr v, ?_⟩
      cases v <;> rfl

theorem vinStep_ok (d : Snapshot) (val : PyVal)
    (h : val = PyVal.none ∨ ∃ s, val = PyVal.str s) :
    stepOk (vinStep d val) = true := by
  rcases h with h | ⟨s, h⟩ <;> subst h
  · rfl
  · unfold vinStep
    dsimp only
    split
    · simp only [pylen]
      split <;> rfl
    · rfl

theorem mainDispatch_ok (d : Snapshot) (name : String) (r : CmdResult)
    (hstat : name = "STATUS" → statusBenign r.val)
    (hvin : name = "VIN" → (r.val = PyVal.none ∨ ∃ s, r.val = PyVal.str s)) :
    stepOk (mainDispatch d name r) = true := by
  unfold mainDispatch
  split
  · rename_i hs
    exact statusStep_ok _ _ (hstat hs)
  · split
    · rename_i hv
      exact vinStep_ok _ _ (hvin hv)
    · split <;> rfl

theorem mainStep_ok (env : Env) (d : Snapshot) (name : String)
    (hstat : name = "STATUS" →
      statusBenign (query_obd_command "STATUS" (env.outcome "STATUS")).val) :
    stepOk (mainStep env d name) = true := by
  unfold mainStep
  cases ho : env.outcome name with
  | gatherExc => rfl
  | raises =>
    refine mainDispatch_ok _ _ _ (fun hs => ?_) (fun hv => ?_)
    · subst hs
      rw [ho] at hstat
      exact hstat rfl
    · subst hv
      exact query_vin_shape _
  | responds isNull v u =>
    refine mainDispatch_ok _ _ _ (fun hs => ?_) (fun hv => ?_)
    · subst hs
      rw [ho] at hstat
      exact hstat rfl
    · subst hv
      exact query_vin_shape _

/-! ### Result-loop (fold) lemmas -/

theorem runSteps_ext (env : Env) (l : List String) (d : Snapshot) :
    DictExt d (stepSnap (runSteps env l d)) := by
  induction l generalizing d with
  | nil => exact .refl d
  | cons n rest ih =>
    simp only [runSteps]
    cases h : mainStep env d n with
    | error e =>
      have hext := mainStep_ext env d n
      rw [h] at hext
      exact hext
    | ok d1 =>
      have hext := mainStep_ext env d n
      rw [h] at hext
      simp only [stepSnap] at hext
      exact hext.trans (ih d1)

theorem runSteps_frame (env : Env) (l : List String) (d : Snapshot) (k : String)
    (hk : ∀ n ∈ l, k ∉ writesOf n) :
    dictLookup (stepSnap (runSteps env l d)) k = dictLookup d k := by
  induction l generalizing d with
  | nil => rfl
  | cons n rest ih =>
    simp only [runSteps]
    cases h : mainStep env d n with
    | error e =>
      have hf := mainStep_frame env d n k (hk n (by simp))
      rw [h] at hf
      exact hf
    | ok d1 =>
      have hf := mainStep_frame env d n k (hk n (by simp))
      rw [h] at hf
      simp only [stepSnap] at hf
      rw [ih d1 (fun x hx => hk x (by simp [hx]))]
      exact hf

theorem runSteps_ok (env : Env) (l : List String) (d : Snapshot)
    (h : ∀ n ∈ l, ∀ d₀ : Snapshot, stepOk (mainStep env d₀ n) = true) :
    stepOk (runSteps env l d) = true := by
  induction l generalizing d with
  | nil => rfl
  | cons n rest ih =>
    simp only [runSteps]
    cases hm : mainStep env d n with
    | error e =>
      have := h n (by simp) d
      rw [hm] at this
      exact absurd this (by simp [stepOk])
    | ok d1 => exact ih d1 (fun x hx d₀ => h x (by simp [hx]) d₀)

theorem runSteps_lookup_writer (env : Env) (l : List String) (d : Snapshot)
    (c k : String) (v : PyVal)
    (hnd : l.Nodup) (hc : c ∈ l)
    (hoth : ∀ n ∈ l, n ≠ c → k ∉ writesOf n)
    (hwrite : ∀ d₀ : Snapshot, dictLookup (stepSnap (mainStep env d₀ c)) k = some v)
    (hok : stepOk (runSteps env l d) = true) :
    dictLookup (stepSnap (runSteps env l d)) k = some v := by
  induction l generalizing d with
  | nil => simp at hc
  | cons n rest ih =>
    simp only [runSteps] at hok ⊢
    cases hm : mainStep env d n with
    | error e =>
      rw [hm] at hok
      simp [stepOk] at hok
    | ok d1 =>
      rw [hm] at hok
      dsimp only at hok ⊢
      by_cases hnc : n = c
      · subst hnc
        have hw := hwrite d
        rw [hm] at hw
        simp only [stepSnap] at hw
        have hcrest : n ∉ rest := (List.nodup_cons.mp hnd).1
        rw [runSteps_frame env rest d1 k
          (fun x hx => hoth x (by simp [hx]) (fun he => hcrest (he ▸ hx)))]
        exact hw
      · have hcrest : c ∈ rest := by
          rcases List.mem_cons.mp hc with h | h
          · exact absurd h.symm hnc
          · exact h
        exact ih d1 (List.nodup_cons.mp hnd).2 hcrest
          (fun x hx hxc => hoth x (by simp [hx]) hxc) hok

/-! ### Phase-level lemmas -/

theorem boostPhase_ext (d : Snapshot) : DictExt d (boostPhase d) := by
  unfold boostPhase
  dsimp only
  split
  · split
    · exact .set _ _ (.refl d)
    · exact .set _ _ (.refl d)
  · exact .set _ _ (.refl d)

theorem dtcPhase_ext (env : Env) (d : Snapshot) :
    DictExt d (dtcSnap (dtcPhase env d)) := by
  unfold dtcPhase
  dsimp only
  repeat' split
  all_goals first
    | exact .refl d
    | exact .set _ _ (.refl d)

theorem coreQuery_ext (env : Env) : DictExt initData (dtcSnap (coreQuery env)) := by
  have hext : DictExt initData (stepSnap (mainPhase env initData)) :=
    runSteps_ext env (mainCmdNames.filter env.hasCmd) initData
  unfold coreQuery
  cases hm : mainPhase env initData with
  | error e =>
    obtain ⟨d, s⟩ := e
    rw [hm] at hext
    exact hext
  | ok d =>
    rw [hm] at hext
    simp only [stepSnap] at hext
    dsimp only
    have h2 := dtcPhase_ext env d
    cases hd : dtcPhase env d with
    | error e =>
      rw [hd] at h2
      exact hext.trans h2
    | ok p =>
      obtain ⟨d1, n⟩ := p
      rw [hd] at h2
      simp only [dtcSnap] at h2 ⊢
      exact .set _ _ ((hext.trans h2).trans (boostPhase_ext d1))

theorem coreQuery_ok_status (env : Env) (d : Snapshot) (n : ℕ)
    (h : coreQuery env = .ok (d, n)) :
    dictLookup d "status" = some (PyVal.str "OK") := by
  unfold coreQuery at h
  cases hm : mainPhase env initData with
  | error e =>
    rw [hm] at h
    obtain ⟨d₀, s⟩ := e
    simp at h
  | ok d₀ =>
    rw [hm] at h
    dsimp only at h
    cases hd : dtcPhase env d₀ with
    | error e =>
      rw [hd] at h
      simp at h
    | ok p =>
      obtain ⟨d1, n1⟩ := p
      rw [hd] at h
      simp only [Except.ok.injEq, Prod.mk.injEq] at h
      rw [← h.1]
      exact dictLookup_dictSet_self _ _ _

theorem boostPhase_frame (d : Snapshot) (k : String) (hk : k ≠ "boost_pressure") :
    dictLookup (boostPhase d) k = dictLookup d k := by
  unfold boostPhase
  dsimp only
  repeat' split
  all_goals rw [dictLookup_dictSet_ne _ _ _ _ (Ne.symm hk)]

theorem filter_all (env : Env) (hhas : ∀ n, env.hasCmd n = true) :
    mainCmdNames.filter env.hasCmd = mainCmdNames :=
  List.filter_eq_self.mpr (fun a _ => hhas a)

theorem query_obd_data_ready (env : Env) (hconn : env.conn = readyConn) :
    query_obd_data env =
      (match coreQuery env with
       | .ok (d, n) => (d, n)
       | .error (d, e, n) =>
         (dictSet (dictSet d "status" (PyVal.str "OBD_QUERY_ERROR"))
           "error_details" (PyVal.str e), n)) := by
  unfold query_obd_data
  rw [hconn]
  rfl

/-! ### `STATUS`-branch value lemmas -/

theorem statusStep_values (d : Snapshot) (xs : List PyVal) (h2 : 2 ≤ xs.length)
    (kk : ℤ) (hint : pyint (xs.getD 1 PyVal.none) = .ok kk) :
    statusStep d (PyVal.tuple xs) =
      .ok (dictSet (dictSet d "mil_on" (PyVal.bool (pybool (xs.getD 0 PyVal.none))))
        "dtc_count" (PyVal.num kk)) := by
  simp only [statusStep, if_pos h2, hint]

theorem statusStep_degrade (d : Snapshot) (val : PyVal)
    (h : ∀ xs, val = PyVal.tuple xs → xs.length < 2) :
    statusStep d val =
      .ok (dictSet (dictSet d "mil_on" (PyVal.bool false)) "dtc_count" (PyVal.num 0)) := by
  cases val
  case tuple xs =>
    have hlt := h xs rfl
    simp only [statusStep]
    rw [if_neg (by omega)]
  all_goals rfl

theorem statusStep_raises (d : Snapshot) (xs : List PyVal) (h2 : 2 ≤ xs.length)
    (e : String) (hint : pyint (xs.getD 1 PyVal.none) = .error e) :
    statusStep d (PyVal.tuple xs) =
      .error (dictSet d "mil_on" (PyVal.bool (pybool (xs.getD 0 PyVal.none))), e) := by
  simp only [statusStep, if_pos h2, hint]

/-- `query_obd_command` on a non-null `STATUS` tuple response passes the
tuple through unchanged with no unit. -/
theorem query_status_tuple (xs : List PyVal) (u : Option String) :
    (query_obd_command "STATUS" (.responds false (PyVal.tuple xs) u)).val =
      PyVal.tuple xs := rfl

/-! ### Exact-arithmetic evaluation lemmas -/

theorem ratTrunc_intCast (k : ℤ) : ratTrunc (k : ℚ) = k := by
  unfold ratTrunc
  split
  · rw [← Int.cast_neg, Int.floor_intCast]
    omega
  · rw [Int.floor_intCast]

theorem roundHalfEven_intCast (k : ℤ) : roundHalfEven (k : ℚ) = k := by
  unfold roundHalfEven
  rw [Int.floor_intCast, sub_self]
  rw [if_pos (by norm_num : (0 : ℚ) < 1 / 2)]

theorem pyround2_intCast (k : ℤ) : pyround2 (k : ℚ) = k := by
  unfold pyround2
  have h1 : ((k : ℚ) * 100) = ((k * 100 : ℤ) : ℚ) := by push_cast; ring
  rw [h1, roundHalfEven_intCast]
  rw [Int.cast_mul]
  norm_num

/-! ### Decidable catalog facts -/

theorem names_nodup : mainCmdNames.Nodup := by decide

theorem status_mem_names : ("STATUS" : String) ∈ mainCmdNames := by decide

set_option maxRecDepth 8000 in
theorem milDtc_not_written : ∀ n ∈ mainCmdNames, n ≠ "STATUS" →
    ("mil_on" : String) ∉ writesOf n ∧ ("dtc_count" : String) ∉ writesOf n := by
  decide

set_option maxRecDepth 8000 in
theorem fixed_not_written : ∀ n ∈ mainCmdNames,
    ("dtcs" : String) ∉ writesOf n ∧ ("boost_pressure" : String) ∉ writesOf n ∧
    ("status" : String) ∉ writesOf n ∧ ("error_details" : String) ∉ writesOf n := by
  decide

theorem mainDispatch_status (d : Snapshot) (r : CmdResult) :
    mainDispatch d "STATUS" r = statusStep d r.val := by
  unfold mainDispatch
  rw [if_pos rfl]

/-- `query_obd_command` on a non-null `GET_DTC` list response passes the list
through unchanged, unit-less and error-free. -/
theorem query_getdtc_list (L : List PyVal) (u : Option String) :
    query_obd_command "GET_DTC" (.responds false (PyVal.list L) u) =
      ⟨"GET_DTC", PyVal.list L, Option.none, false⟩ := rfl

theorem filterMap_mkDtc (pairs : List (PyVal × PyVal)) :
    (pairs.map (fun p => PyVal.tuple [p.1, p.2])).filterMap mkDtcEntry =
      pairs.map (fun p => PyVal.dict [("code", p.1), ("desc", p.2)]) := by
  induction pairs with
  | nil => rfl
  | cons p rest ih => simp [mkDtcEntry, ih]

/-! ### DTC-phase lemmas -/

theorem dtcPhase_skip (env : Env) (d : Snapshot) (b : Bool)
    (hmil : (dictLookup d "mil_on").getD PyVal.none = PyVal.bool b)
    (q : ℚ) (hcnt : (dictLookup d "dtc_count").getD (PyVal.num 0) = PyVal.num q)
    (hnb : ¬(b = true ∧ 0 < q)) :
    dtcPhase env d = .ok (d, 0) := by
  unfold dtcPhase
  rw [hmil, hcnt]
  cases b with
  | false => simp [pybool]
  | true =>
    have hq : ¬(0 : ℚ) < q := fun h => hnb ⟨rfl, h⟩
    simp only [pybool, if_true]
    rw [show pygt0 (PyVal.num q) = .ok false from by simp [pygt0, hq]]

theorem dtcPhase_fire_count (env : Env) (d : Snapshot)
    (hmil : (dictLookup d "mil_on").getD PyVal.none = PyVal.bool true)
    (q : ℚ) (hcnt : (dictLookup d "dtc_count").getD (PyVal.num 0) = PyVal.num q)
    (hq : 0 < q) (hhas : env.hasCmd "GET_DTC" = true) :
    dtcCount (dtcPhase env d) = 1 := by
  unfold dtcPhase
  rw [hmil, hcnt]
  simp only [pybool, if_true]
  rw [show pygt0 (PyVal.num q) = .ok true from by simp [pygt0, hq]]
  dsimp only
  rw [hhas]
  simp only [if_true]
  repeat' split
  all_goals rfl

theorem dtcPhase_fire_eq (env : Env) (d : Snapshot)
    (hmil : (dictLookup d "mil_on").getD PyVal.none = PyVal.bool true)
    (q : ℚ) (hcnt : (dictLookup d "dtc_count").getD (PyVal.num 0) = PyVal.num q)
    (hq : 0 < q) (hhas : env.hasCmd "GET_DTC" = true)
    (pairs : List (PyVal × PyVal))
    (hdtc : env.dtcOutcome = .responds false
      (PyVal.list (pairs.map (fun p => PyVal.tuple [p.1, p.2]))) Option.none) :
    dtcPhase env d = .ok (dictSet d "dtcs"
      (PyVal.list (pairs.map (fun p => PyVal.dict [("code", p.1), ("desc", p.2)]))), 1) := by
  unfold dtcPhase
  rw [hmil, hcnt]
  simp only [pybool, if_true]
  rw [show pygt0 (PyVal.num q) = .ok true from by simp [pygt0, hq]]
  dsimp only
  rw [hhas]
  simp only [if_true]
  rw [hdtc, query_getdtc_list]
  simp only [isNoneVal, Bool.not_false, Bool.and_self, if_true]
  dsimp only [pyiter]
  rw [filterMap_mkDtc]

/-! ### Further fold lemmas: preservation and single-error runs -/

theorem runSteps_pres (env : Env) (l : List String) (d : Snapshot) (k : String)
    (hpres : ∀ n ∈ l, ∀ d₀ : Snapshot,
      dictLookup (stepSnap (mainStep env d₀ n)) k = dictLookup d₀ k) :
    dictLookup (stepSnap (runSteps env l d)) k = dictLookup d k := by
  induction l generalizing d with
  | nil => rfl
  | cons n rest ih =>
    simp only [runSteps]
    cases hm : mainStep env d n with
    | error e =>
      have h := hpres n (by simp) d
      rw [hm] at h
      exact h
    | ok d1 =>
      have h := hpres n (by simp) d
      rw [hm] at h
      simp only [stepSnap] at h
      rw [ih d1 (fun x hx => hpres x (by simp [hx]))]
      exact h

theorem runSteps_lookup_writer' (env : Env) (l : List String) (d : Snapshot)
    (c k : String) (v : PyVal)
    (hnd : l.Nodup) (hc : c ∈ l)
    (hoth : ∀ n ∈ l, n ≠ c → k ∉ writesOf n)
    (hothok : ∀ n ∈ l, n ≠ c → ∀ d₀ : Snapshot, stepOk (mainStep env d₀ n) = true)
    (hwrite : ∀ d₀ : Snapshot, dictLookup (stepSnap (mainStep env d₀ c)) k = some v) :
    dictLookup (stepSnap (runSteps env l d)) k = some v := by
  induction l generalizing d with
  | nil => simp at hc
  | cons n rest ih =>
    simp only [runSteps]
    by_cases hnc : n = c
    · subst hnc
      cases hm : mainStep env d n with
      | error e =>
        have hw := hwrite d
        rw [hm] at hw
        exact hw
      | ok d1 =>
        have hw := hwrite d
        rw [hm] at hw
        simp only [stepSnap] at hw
        have hcrest : n ∉ rest := (List.nodup_cons.mp hnd).1
        rw [runSteps_frame env rest d1 k
          (fun x hx => hoth x (by simp [hx]) (fun he => hcrest (he ▸ hx)))]
        exact hw
    · cases hm : mainStep env d n with
      | error e =>
        have := hothok n (by simp) hnc d
        rw [hm] at this
        simp [stepOk] at this
      | ok d1 =>
        have hcrest : c ∈ rest := by
          rcases List.mem_cons.mp hc with h | h
          · exact absurd h.symm hnc
          · exact h
        exact ih d1 (List.nodup_cons.mp hnd).2 hcrest
          (fun x hx hxc => hoth x (by simp [hx]) hxc)
          (fun x hx hxc d₀ => hothok x (by simp [hx]) hxc d₀)

theorem runSteps_error (env : Env) (l : List String) (d : Snapshot) (c : String)
    (hc : c ∈ l)
    (herr : ∀ d₀ : Snapshot, stepOk (mainStep env d₀ c) = false) :
    stepOk (runSteps env l d) = false := by
  induction l generalizing d with
  | nil => simp at hc
  | cons n rest ih =>
    simp only [runSteps]
    cases hm : mainStep env d n with
    | error e => rfl
    | ok d1 =>
      by_cases hnc : n = c
      · subst hnc
        have := herr d
        rw [hm] at this
        simp [stepOk] at this
      · have hcrest : c ∈ rest := by
          rcases List.mem_cons.mp hc with h | h
          · exact absurd h.symm hnc
          · exact h
        exact ih d1 hcrest

theorem dtcPhase_frame (env : Env) (d : Snapshot) (k : String) (hk : k ≠ "dtcs") :
    dictLookup (dtcSnap (dtcPhase env d)) k = dictLookup d k := by
  unfold dtcPhase
  dsimp only
  repeat' split
  all_goals
    first
    | rfl
    | (simp only [dtcSnap]
       rw [dictLookup_dictSet_ne _ _ _ _ (Ne.symm hk)])

/-! ### Boost-phase value lemmas -/

theorem boostPhase_num (d : Snapshot) (a b : ℚ)
    (ha : dictLookup d "manifold_pressure" = some (PyVal.num a))
    (hb : dictLookup d "baro_pressure" = some (PyVal.num b)) :
    dictLookup (boostPhase d) "boost_pressure" =
      some (PyVal.num (pyround2 (a - b))) := by
  unfold boostPhase
  rw [ha, hb]
  simp only [Option.getD_some, isNoneVal, Bool.not_false, Bool.and_self, if_true, pyfloat]
  exact dictLookup_dictSet_self _ _ _

theorem boostPhase_none (d : Snapshot)
    (h : dictLookup d "manifold_pressure" = some PyVal.none ∨
         dictLookup d "baro_pressure" = some PyVal.none) :
    dictLookup (boostPhase d) "boost_pressure" = some PyVal.none := by
  unfold boostPhase
  rcases h with h | h
  · rw [h]
    simp only [Option.getD_some, isNoneVal, Bool.not_true, Bool.false_and,
      Bool.false_eq_true, if_false]
    exact dictLookup_dictSet_self _ _ _
  · rw [h]
    simp only [Option.getD_some, isNoneVal, Bool.not_true, Bool.and_false,
      Bool.false_eq_true, if_false]
    exact dictLookup_dictSet_self _ _ _

theorem coreQuery_ok_parts (env : Env) (d : Snapshot) (n : ℕ)
    (h : coreQuery env = .ok (d, n)) :
    ∃ d0 d2, mainPhase env initData = .ok d0 ∧ dtcPhase env d0 = .ok (d2, n) ∧
      d = dictSet (boostPhase d2) "status" (PyVal.str "OK") := by
  unfold coreQuery at h
  cases hm : mainPhase env initData with
  | error e =>
    rw [hm] at h
    obtain ⟨d₀, s⟩ := e
    simp at h
  | ok d0 =>
    rw [hm] at h
    dsimp only at h
    cases hd : dtcPhase env d0 with
    | error e =>
      rw [hd] at h
      simp at h
    | ok p =>
      obtain ⟨d2, n2⟩ := p
      rw [hd] at h
      simp only [Except.ok.injEq, Prod.mk.injEq] at h
      exact ⟨d0, d2, rfl, hd.trans (by rw [h.2]), h.1.symm⟩

/-! ### Processed values of quantity and string responses -/

theorem query_quantity (name : String) (mq : ℚ) (us : String)
    (h1 : name ∉ strTypedNames) (h2 : name ≠ "STATUS") (h3 : name ≠ "GET_DTC") :
    query_obd_command name (.responds false (PyVal.quantity mq us) Option.none) =
      ⟨name, PyVal.num (expectedVal name mq), some (expectedUnit name us), false⟩ := by
  unfold query_obd_command processResponse expectedVal expectedUnit
  by_cases hs : name = "SPEED" <;>
    simp [hs, h1, h2, h3, isQuantity, isNoneVal]

/-- A failed query's result tuple (`(name, None, None, True)`). -/
theorem query_failed (name : String) (o : CmdOutcome) (h : failedOutcome o) :
    query_obd_command name o = ⟨name, PyVal.none, Option.none, true⟩ := by
  rcases h with h | ⟨v, u, h⟩ <;> subst h <;> rfl

/-! ### More decidable catalog facts -/

set_option maxRecDepth 8000 in
theorem map_total : ∀ c ∈ mainCmdNames, c ≠ "STATUS" → c ≠ "VIN" →
    keyLookup c = some (mapKey c) := by
  decide

set_option maxRecDepth 8000 in
theorem writes_disjoint : ∀ c ∈ mainCmdNames, c ≠ "STATUS" → c ≠ "VIN" →
    ∀ x ∈ mainCmdNames, x ≠ c → mapKey c ∉ writesOf x := by
  decide

set_option maxRecDepth 8000 in
theorem mapKey_fresh : ∀ c ∈ mainCmdNames, c ≠ "STATUS" → c ≠ "VIN" →
    mapKey c ≠ "status" ∧ mapKey c ≠ "boost_pressure" ∧ mapKey c ≠ "dtcs" ∧
    mapKey c ≠ "error_details" := by
  decide

theorem not_getdtc : ∀ c ∈ mainCmdNames, c ≠ "GET_DTC" := by decide

theorem strTyped_sub_exceptional :
    ∀ c ∈ (["FUEL_TYPE", "ECU_NAME", "FUEL_STATUS", "OBD_COMPLIANCE"] : List String),
      c ∈ mainCmdNames ∧ c ≠ "STATUS" ∧ c ≠ "VIN" := by
  decide

theorem strTyped_in_exceptional : ∀ x ∈ strTypedNames, x ∈ exceptionalNames := by
  decide

theorem exceptional_mem_iff : ∀ c : String, c ∈ exceptionalNames →
    c = "STATUS" ∨ c = "VIN" ∨ c = "FUEL_TYPE" ∨ c = "ECU_NAME" ∨
    c = "FUEL_STATUS" ∨ c = "OBD_COMPLIANCE" := by
  intro c hc
  simpa [exceptionalNames] using hc

/-! ### Cycle-level composition lemmas -/

/-- In a ready cycle whose fan-out succeeded with dict `d1`, any snapshot key
other than the ones the tail phases write reads the same in the final
snapshot as in `d1`, whether or not the DTC phase raised. -/
theorem query_field_of_mainPhase (env : Env) (d1 : Snapshot) (k : String)
    (hconn : env.conn = readyConn)
    (hmainPhase : mainPhase env initData = .ok d1)
    (h1 : k ≠ "dtcs") (h2 : k ≠ "boost_pressure") (h3 : k ≠ "status")
    (h4 : k ≠ "error_details") :
    dictLookup (query_obd_data env).1 k = dictLookup d1 k := by
  rw [query_obd_data_ready env hconn]
  unfold coreQuery
  rw [hmainPhase]
  dsimp only
  have hframe := dtcPhase_frame env d1 k h1
  cases hD : dtcPhase env d1 with
  | ok p =>
    obtain ⟨d2, n2⟩ := p
    rw [hD] at hframe
    simp only [dtcSnap] at hframe
    dsimp only
    rw [dictLookup_dictSet_ne _ _ _ _ (Ne.symm h3), boostPhase_frame _ _ h2, hframe]
  | error e =>
    obtain ⟨dd, s, nn⟩ := e
    rw [hD] at hframe
    simp only [dtcSnap] at hframe
    dsimp only
    rw [dictLookup_dictSet_ne _ _ _ _ (Ne.symm h4),
      dictLookup_dictSet_ne _ _ _ _ (Ne.symm h3), hframe]

/-- The `STATUS` processing keeps non-numeric values unchanged and rounds a
bare float, so non-tuple shapes stay non-tuples. -/
theorem query_status_val_shape (v : PyVal) (u : Option String) :
    (query_obd_command "STATUS" (.responds false v u)).val = v ∨
    ∃ q, v = PyVal.num q ∧
      (query_obd_command "STATUS" (.responds false v u)).val =
        PyVal.num (pyround2 q) := by
  cases v
  case num q => exact .inr ⟨q, rfl, rfl⟩
  all_goals exact .inl rfl

theorem mainPhase_ok_exists (env : Env)
    (hhas : ∀ n, env.hasCmd n = true)
    (hbenign : statusBenign (query_obd_command "STATUS" (env.outcome "STATUS")).val) :
    ∃ d1, mainPhase env initData = .ok d1 := by
  have hok : stepOk (runSteps env (mainCmdNames.filter env.hasCmd) initData) = true :=
    runSteps_ok env _ initData (fun n _ d₀ => mainStep_ok env d₀ n (fun _ => hbenign))
  unfold mainPhase
  cases h : runSteps env (mainCmdNames.filter env.hasCmd) initData with
  | error e =>
    rw [h] at hok
    simp [stepOk] at hok
  | ok d1 => exact ⟨d1, rfl⟩

/-- Whatever the `STATUS` iteration writes under `mil_on` and `dtc_count` is
what the fan-out's final dict holds there: nothing else touches those keys
and every other iteration returns normally. -/
theorem mainPhase_status_lookup (env : Env) (d1 : Snapshot) (vmil vdtc : PyVal)
    (hhas : ∀ n, env.hasCmd n = true)
    (hmainPhase : mainPhase env initData = .ok d1)
    (hstep : ∀ d₀ : Snapshot, mainStep env d₀ "STATUS" =
      .ok (dictSet (dictSet d₀ "mil_on" vmil) "dtc_count" vdtc)) :
    dictLookup d1 "mil_on" = some vmil ∧ dictLookup d1 "dtc_count" = some vdtc := by
  have hl : runSteps env mainCmdNames initData = .ok d1 := by
    have h := hmainPhase
    unfold mainPhase at h
    rwa [filter_all env hhas] at h
  constructor
  · have h := runSteps_lookup_writer' env mainCmdNames initData "STATUS" "mil_on" vmil
      names_nodup status_mem_names
      (fun n hn hne => (milDtc_not_written n hn hne).1)
      (fun n hn hne d₀ => mainStep_ok env d₀ n (fun hs => absurd hs hne))
      (fun d₀ => by
        rw [hstep d₀]
        simp only [stepSnap]
        rw [dictLookup_dictSet_ne _ _ _ _ (by decide), dictLookup_dictSet_self])
    rw [hl] at h
    simpa [stepSnap] using h
  · have h := runSteps_lookup_writer' env mainCmdNames initData "STATUS" "dtc_count" vdtc
      names_nodup status_mem_names
      (fun n hn hne => (milDtc_not_written n hn hne).2)
      (fun n hn hne d₀ => mainStep_ok env d₀ n (fun hs => absurd hs hne))
      (fun d₀ => by
        rw [hstep d₀]
        simp only [stepSnap]
        rw [dictLookup_dictSet_self])
    rw [hl] at h
    simpa [stepSnap] using h

/-- C1 (code bug): on the 17-character VIN `"1G1ZT53826F109149"` the code's
make lookup scans the whole `MANUFACTURER_CODES` table in insertion order
with `vin.startswith(code)`, so the 2-character entry `"1G"` (inserted before
`"1G1"`) matches first and the decoded make is `"General Motors (US)"` — not
`"Chevrolet"` as the spec's 3-characters-then-2-characters algorithm and its
test property require.  This theorem evaluates the embedded code at the
failing input. -/
theorem C1_make_lookup_eval :
    (decode_vin "1G1ZT53826F109149").make = some "General Motors (US)" ∧
    (decode_vin "1G1ZT53826F109149").make ≠ some "Chevrolet" := by
  decide

/-- C9 (confirmed): for every 17-character VIN, position 10 (index 9) is
looked up in the year table that results from evaluating the `year_map`
literal, in which each letter shared between the 1980s and the 2010s cycles
(`A B C D E F G H J K L M N P R`) is bound to the later cycle's year
(2010 + its index in that list), because the later entry overwrites the
earlier one during dict-literal construction; characters absent from the
table give `model_year = None`. -/
theorem C9_model_year_cycles (vin : String) (h17 : vin.length = 17) :
    (∀ i : Fin 15,
        vin.data.getD 9 ' ' = "ABCDEFGHJKLMNPR".data.getD i.val ' ' →
        (decode_vin vin).model_year = some (2010 + i.val)) ∧
    (yearLookup (vin.data.getD 9 ' ') = Option.none →
        (decode_vin vin).model_year = Option.none) := by
  have hv : (decode_vin vin).model_year = yearLookup (vin.data.getD 9 ' ') := by
    unfold decode_vin
    rw [if_neg (by omega)]
  constructor
  · intro i h
    rw [hv, h]
    fin_cases i <;> decide
  · intro h
    rw [hv, h]

/-- Witness for C9: the VIN `"1G1ZT5382AF109149"` has `'A'` at position 10
and decodes to model year 2010 (the 2010s cycle, not 1980). -/
theorem C9_model_year_cycles_witness :
    (decode_vin "1G1ZT5382AF109149").model_year = some 2010 :=
  (C9_model_year_cycles "1G1ZT5382AF109149" (by decide)).1 ⟨0, by omega⟩ (by decide)

/-- A failing connection attempt that nevertheless leaves the global
connection object set: no protocol is auto-detected, `set_protocol("6")`
is accepted, the confirmation at line 62 fails because `protocol_name()`
reads falsy, yet the `finally` cleanup at line 81 reads `is_connected()` and
`protocol_id()` as truthy and therefore skips closing. -/
def leakyAttempt : AttemptEnv :=
  ⟨false, true, false, true, true, true, false, true, true, false⟩

/-- Counterexample to C5 as stated: with a single attempt (`max_retries = 1`)
that fails, `initialize_obd_connection` returns `False` but the global
connection object is not `None`, so `get_connection()` afterwards is not
`None`. -/
theorem C5_retry_exhaustion_counterexample :
    attemptSucceeds leakyAttempt = false ∧
    (initialize_obd_connection [leakyAttempt] Option.none).2 = false ∧
    (initialize_obd_connection [leakyAttempt] Option.none).1 ≠ Option.none := by
  decide

/-- C5 (corrected): if the global starts absent, every attempt fails, and no
failed attempt's `finally`-block check reads the adapter as connected with a
protocol (the situation with a consistent adapter, whose `protocol_name()` is
truthy exactly when `protocol_id()` is), then `initialize_obd_connection`
returns `False` and the global connection is `None`, so `get_connection()`
returns `None`. -/
theorem C5_retry_exhaustion_amended (attempts : List AttemptEnv)
    (hfail : ∀ e ∈ attempts, attemptSucceeds e = false)
    (hclean : ∀ e ∈ attempts, ¬(e.isConnectedF = true ∧ e.protocolIdF = true)) :
    initialize_obd_connection attempts Option.none = (Option.none, false) := by
  induction attempts with
  | nil => rfl
  | cons e rest ih =>
    have h1 : attemptSucceeds e = false := hfail e (by simp)
    have h2 : ¬(e.isConnectedF = true ∧ e.protocolIdF = true) := hclean e (by simp)
    have hclean' : attemptCleanup e (if e.ctorRaises then Option.none else some ()) =
        Option.none := by
      unfold attemptCleanup
      rcases h3 : e.isConnectedF with _ | _ <;>
        rcases h4 : e.protocolIdF with _ | _ <;>
        simp_all
    show (if (runAttempt e Option.none).2 = true then _ else _) = _
    rw [runAttempt]
    simp only [h1, if_false, Bool.false_eq_true]
    rw [hclean']
    exact ih (fun x hx => hfail x (by simp [hx])) (fun x hx => hclean x (by simp [hx]))

/-- Witness for C5 (amended): two clean failing attempts (a raising
constructor, then a failed `is_connected()`) leave the global `None` and
return `False`. -/
theorem C5_retry_exhaustion_witness :
    initialize_obd_connection
      [⟨true, false, false, false, false, false, false, false, false, false⟩,
       ⟨false, false, false, false, false, false, false, false, false, false⟩]
      Option.none = (Option.none, false) :=
  C5_retry_exhaustion_amended _ (by decide) (by decide)

/-- C6 (confirmed): `close_connection` on an absent connection object is a
no-op reporting success; on a present but not-connected object it reports
success (and clears the global); and for every present object the global is
set to `None` afterwards, even when the underlying `close()` raises. -/
theorem C6_close_idempotent (e : CloseEnv) :
    (close_connection Option.none e = (Option.none, true)) ∧
    (e.isConnectedRaises = false → e.isConnected = false →
        close_connection (some ()) e = (Option.none, true)) ∧
    (∀ conn : Option Unit, (close_connection conn e).1 = Option.none) := by
  refine ⟨rfl, ?_, ?_⟩
  · intro h1 h2
    simp [close_connection, h1, h2]
  · intro conn
    rcases conn with _ | _
    · rfl
    · simp only [close_connection]
      rcases e.isConnectedRaises with _ | _ <;>
        rcases e.isConnected with _ | _ <;>
        rcases e.closeRaises with _ | _ <;> rfl

/-- Witness for C6: a not-connected object closes as a success with the
global cleared, and a raising `close()` still clears the global. -/
theorem C6_close_idempotent_witness :
    close_connection (some ()) ⟨false, false, false⟩ = (Option.none, true) ∧
    (close_connection (some ()) ⟨false, true, true⟩).1 = Option.none :=
  ⟨(C6_close_idempotent ⟨false, false, false⟩).2.1 rfl rfl,
   (C6_close_idempotent ⟨false, true, true⟩).2.2 (some ())⟩

/-- C2 (confirmed): every key present in the initial snapshot dict — every
declared output key, its `_unit` companion where one is declared, and the
fixed extras — is present in the snapshot returned by `query_obd_data`, for
every environment (disconnected, no protocol, ready, and query-error
cycles alike): the cycle only ever overwrites values (possibly with `None`),
it never removes a key. -/
theorem C2_schema_completeness (env : Env) (k : String)
    (hk : hasKey initData k = true) :
    hasKey (query_obd_data env).1 k = true := by
  unfold query_obd_data
  split
  · exact hasKey_dictSet _ _ _ _ hk
  · split
    · exact hasKey_dictSet _ _ _ _ hk
    · have hext := coreQuery_ext env
      cases hc : coreQuery env with
      | ok p =>
        obtain ⟨d, n⟩ := p
        rw [hc] at hext
        simp only [dtcSnap] at hext
        exact hext.hasKey_mono hk
      | error e =>
        obtain ⟨d, s, n⟩ := e
        rw [hc] at hext
        simp only [dtcSnap] at hext
        exact hasKey_dictSet _ _ _ _ (hasKey_dictSet _ _ _ _ (hext.hasKey_mono hk))

/-- Witness for C2: in a ready cycle in which every parameter query returns
null, the `rpm` key (and its unit companion) are still present. -/
theorem C2_schema_completeness_witness :
    hasKey (query_obd_data allNullEnv).1 "rpm" = true ∧
    hasKey (query_obd_data allNullEnv).1 "rpm_unit" = true :=
  ⟨C2_schema_completeness allNullEnv "rpm" rfl,
   C2_schema_completeness allNullEnv "rpm_unit" rfl⟩

/-- C10 (confirmed): in a ready cycle, if the `try` body completes without an
exception the snapshot's `status` is `"OK"` — no matter how many individual
queries failed — and a snapshot with `status = "OBD_QUERY_ERROR"` can only
arise from an exception escaping the `try` body, in which case
`error_details` is present. -/
theorem C10_status_ok_iff (env : Env) (hconn : env.conn = readyConn) :
    (exceptIsOk (coreQuery env) = true →
        dictLookup (query_obd_data env).1 "status" = some (PyVal.str "OK")) ∧
    (dictLookup (query_obd_data env).1 "status" = some (PyVal.str "OBD_QUERY_ERROR") →
        exceptIsOk (coreQuery env) = false ∧
        hasKey (query_obd_data env).1 "error_details" = true) := by
  have hq : query_obd_data env =
      (match coreQuery env with
       | .ok (d, n) => (d, n)
       | .error (d, e, n) =>
         (dictSet (dictSet d "status" (PyVal.str "OBD_QUERY_ERROR"))
           "error_details" (PyVal.str e), n)) := by
    unfold query_obd_data
    rw [hconn]
    rfl
  cases hc : coreQuery env with
  | ok p =>
    obtain ⟨d, n⟩ := p
    rw [hc] at hq
    dsimp only at hq
    constructor
    · intro _
      rw [hq]
      exact coreQuery_ok_status env d n hc
    · intro hbad
      rw [hq] at hbad
      rw [coreQuery_ok_status env d n hc] at hbad
      simp at hbad
  | error e =>
    obtain ⟨d, s, n⟩ := e
    rw [hc] at hq
    dsimp only at hq
    constructor
    · intro hok
      simp [exceptIsOk] at hok
    · intro _
      refine ⟨rfl, ?_⟩
      rw [hq]
      simp only [hasKey]
      rw [dictLookup_dictSet_self]
      rfl

/-- C3 (confirmed): in a ready cycle whose `STATUS` yields a proper
`(mil_on, dtc_count, ignition)` tuple, the conditional `GET_DTC` query —
issued after the main fan-out, counted by the second component of
`query_obd_data` — is issued exactly once if and only if `mil_on` is true
and `dtc_count > 0`; when the condition fails (in particular `mil_on = false`
with any count) `dtcs` stays the empty list and no trouble-code query is
issued; and when it holds, the query's 2-tuples populate `dtcs` as
`{code, desc}` dicts. -/
theorem C3_dtc_gating (env : Env) (b : Bool) (kq : ℤ) (ign : PyVal) (u : Option String)
    (hconn : env.conn = readyConn)
    (hhas : ∀ n, env.hasCmd n = true)
    (hstat : env.outcome "STATUS" =
      .responds false (PyVal.tuple [PyVal.bool b, PyVal.num (kq : ℚ), ign]) u) :
    ((query_obd_data env).2 = 1 ↔ (b = true ∧ 0 < kq)) ∧
    (¬(b = true ∧ 0 < kq) →
      (query_obd_data env).2 = 0 ∧
      dictLookup (query_obd_data env).1 "dtcs" = some (PyVal.list [])) ∧
    (∀ pairs : List (PyVal × PyVal),
      env.dtcOutcome = .responds false
        (PyVal.list (pairs.map (fun p => PyVal.tuple [p.1, p.2]))) Option.none →
      b = true → 0 < kq →
      dictLookup (query_obd_data env).1 "dtcs" =
        some (PyVal.list (pairs.map (fun p =>
          PyVal.dict [("code", p.1), ("desc", p.2)])))) := by
  have hint : pyint (PyVal.num (kq : ℚ)) = .ok kq := by
    simp [pyint, ratTrunc_intCast]
  have hstep : ∀ d₀ : Snapshot, mainStep env d₀ "STATUS" =
      .ok (dictSet (dictSet d₀ "mil_on" (PyVal.bool b))
        "dtc_count" (PyVal.num (kq : ℚ))) := by
    intro d₀
    rw [mainStep_out env d₀ "STATUS" _ hstat (by simp), mainDispatch_status,
      query_status_tuple]
    rw [statusStep_values d₀ _ (by simp) kq (by exact hint)]
    rfl
  have hbenign : statusBenign (query_obd_command "STATUS" (env.outcome "STATUS")).val := by
    rw [hstat, query_status_tuple]
    intro xs' hx h2
    cases hx
    exact ⟨kq, by exact hint⟩
  have hok : stepOk (runSteps env (mainCmdNames.filter env.hasCmd) initData) = true :=
    runSteps_ok env _ initData (fun n _ d₀ => mainStep_ok env d₀ n (fun _ => hbenign))
  rw [filter_all env hhas] at hok
  obtain ⟨d1, hmain⟩ : ∃ d1, runSteps env mainCmdNames initData = .ok d1 := by
    cases h : runSteps env mainCmdNames initData with
    | error e =>
      rw [h] at hok
      simp [stepOk] at hok
    | ok d1 => exact ⟨d1, rfl⟩
  have hmainPhase : mainPhase env initData = .ok d1 := by
    unfold mainPhase
    rw [filter_all env hhas, hmain]
  have hmil : dictLookup d1 "mil_on" = some (PyVal.bool b) := by
    have h := runSteps_lookup_writer env mainCmdNames initData "STATUS" "mil_on"
      (PyVal.bool b) names_nodup status_mem_names
      (fun n hn hne => (milDtc_not_written n hn hne).1)
      (fun d₀ => by
        rw [hstep d₀]
        simp only [stepSnap]
        rw [dictLookup_dictSet_ne _ _ _ _ (by decide), dictLookup_dictSet_self])
      hok
    rw [hmain] at h
    simpa [stepSnap] using h
  have hcnt : dictLookup d1 "dtc_count" = some (PyVal.num (kq : ℚ)) := by
    have h := runSteps_lookup_writer env mainCmdNames initData "STATUS" "dtc_count"
      (PyVal.num (kq : ℚ)) names_nodup status_mem_names
      (fun n hn hne => (milDtc_not_written n hn hne).2)
      (fun d₀ => by
        rw [hstep d₀]
        simp only [stepSnap]
        rw [dictLookup_dictSet_self])
      hok
    rw [hmain] at h
    simpa [stepSnap] using h
  have hdtcs1 : dictLookup d1 "dtcs" = some (PyVal.list []) := by
    have h := runSteps_frame env mainCmdNames initData "dtcs"
      (fun n hn => (fixed_not_written n hn).1)
    rw [hmain] at h
    simp only [stepSnap] at h
    exact h.trans rfl
  have hmilv : (dictLookup d1 "mil_on").getD PyVal.none = PyVal.bool b := by
    rw [hmil]
    rfl
  have hcntv : (dictLookup d1 "dtc_count").getD (PyVal.num 0) = PyVal.num (kq : ℚ) := by
    rw [hcnt]
    rfl
  have hq2 : (query_obd_data env).2 = dtcCount (dtcPhase env d1) := by
    rw [query_obd_data_ready env hconn]
    unfold coreQuery
    rw [hmainPhase]
    dsimp only
    cases hD : dtcPhase env d1 with
    | ok p =>
      obtain ⟨dd, nn⟩ := p
      rfl
    | error e =>
      obtain ⟨dd, s, nn⟩ := e
      rfl
  have hq1 : ∀ d2 n2, dtcPhase env d1 = .ok (d2, n2) →
      (query_obd_data env).1 = dictSet (boostPhase d2) "status" (PyVal.str "OK") := by
    intro d2 n2 hD
    rw [query_obd_data_ready env hconn]
    unfold coreQuery
    rw [hmainPhase]
    dsimp only
    rw [hD]
  have hcast : ∀ h : 0 < kq, (0 : ℚ) < (kq : ℚ) := fun h => by exact_mod_cast h
  refine ⟨?_, ?_, ?_⟩
  · by_cases hcond : b = true ∧ 0 < kq
    · obtain ⟨hb, hk⟩ := hcond
      subst hb
      have h1 : dtcCount (dtcPhase env d1) = 1 :=
        dtcPhase_fire_count env d1 hmilv _ hcntv (hcast hk) (hhas _)
      rw [hq2, h1]
      simp [hk]
    · have hnb : ¬(b = true ∧ (0 : ℚ) < (kq : ℚ)) := by
        intro ⟨h1, h2⟩
        exact hcond ⟨h1, by exact_mod_cast h2⟩
      have hzero := dtcPhase_skip env d1 b hmilv _ hcntv hnb
      rw [hq2, hzero]
      simp only [dtcCount]
      constructor
      · intro h
        simp at h
      · intro h
        exact absurd h hcond
  · intro hcond
    have hnb : ¬(b = true ∧ (0 : ℚ) < (kq : ℚ)) := by
      intro ⟨h1, h2⟩
      exact hcond ⟨h1, by exact_mod_cast h2⟩
    have hzero := dtcPhase_skip env d1 b hmilv _ hcntv hnb
    refine ⟨by rw [hq2, hzero]; rfl, ?_⟩
    rw [hq1 d1 0 hzero]
    rw [dictLookup_dictSet_ne _ _ _ _ (by decide)]
    rw [boostPhase_frame _ _ (by decide)]
    exact hdtcs1
  · intro pairs hdtc hb hk
    subst hb
    have hfire := dtcPhase_fire_eq env d1 hmilv _ hcntv (hcast hk) (hhas _) pairs hdtc
    rw [hq1 _ 1 hfire]
    rw [dictLookup_dictSet_ne _ _ _ _ (by decide)]
    rw [boostPhase_frame _ _ (by decide)]
    exact dictLookup_dictSet_self _ _ _

/-- Witness for C3: `mil_on = true`, `dtc_count = 2` and a one-entry
`GET_DTC` answer give exactly one trouble-code query and a populated `dtcs`
list; the gating hypotheses are discharged on the concrete environment
`dtcEnvW`. -/
theorem C3_dtc_gating_witness :
    (query_obd_data dtcEnvW).2 = 1 ∧
    dictLookup (query_obd_data dtcEnvW).1 "dtcs" =
      some (PyVal.list [PyVal.dict
        [("code", PyVal.str "P0301"), ("desc", PyVal.str "Cylinder 1 Misfire Detected")]]) :=
  ⟨(C3_dtc_gating dtcEnvW true 2 (PyVal.str "spark") Option.none rfl (fun _ => rfl)
      rfl).1.mpr ⟨rfl, by norm_num⟩,
   (C3_dtc_gating dtcEnvW true 2 (PyVal.str "spark") Option.none rfl (fun _ => rfl)
      rfl).2.2 [(PyVal.str "P0301", PyVal.str "Cylinder 1 Misfire Detected")]
      rfl rfl (by norm_num)⟩

/-- C7 (confirmed): in a ready cycle that completes its `try` body, the
snapshot's `boost_pressure` equals `manifold_pressure − baro_pressure`
rounded to 2 decimal places whenever both stored inputs are numbers, and it
is null whenever either stored input is null. -/
theorem C7_boost_pressure (env : Env)
    (hconn : env.conn = readyConn)
    (hok : exceptIsOk (coreQuery env) = true) :
    (∀ a b : ℚ,
      dictLookup (query_obd_data env).1 "manifold_pressure" = some (PyVal.num a) →
      dictLookup (query_obd_data env).1 "baro_pressure" = some (PyVal.num b) →
      dictLookup (query_obd_data env).1 "boost_pressure" =
        some (PyVal.num (pyround2 (a - b)))) ∧
    ((dictLookup (query_obd_data env).1 "manifold_pressure" = some PyVal.none ∨
      dictLookup (query_obd_data env).1 "baro_pressure" = some PyVal.none) →
      dictLookup (query_obd_data env).1 "boost_pressure" = some PyVal.none) := by
  obtain ⟨d, n, hcore⟩ : ∃ d n, coreQuery env = .ok (d, n) := by
    cases h : coreQuery env with
    | ok p => exact ⟨p.1, p.2, rfl⟩
    | error e =>
      rw [h] at hok
      simp [exceptIsOk] at hok
  obtain ⟨d0, d2, hm, hd, hdd⟩ := coreQuery_ok_parts env d n hcore
  have hq : (query_obd_data env).1 = dictSet (boostPhase d2) "status" (PyVal.str "OK") := by
    rw [query_obd_data_ready env hconn, hcore, hdd]
  have hman : dictLookup (query_obd_data env).1 "manifold_pressure" =
      dictLookup d2 "manifold_pressure" := by
    rw [hq, dictLookup_dictSet_ne _ _ _ _ (by decide),
      boostPhase_frame _ _ (by decide)]
  have hbar : dictLookup (query_obd_data env).1 "baro_pressure" =
      dictLookup d2 "baro_pressure" := by
    rw [hq, dictLookup_dictSet_ne _ _ _ _ (by decide),
      boostPhase_frame _ _ (by decide)]
  have hboost : dictLookup (query_obd_data env).1 "boost_pressure" =
      dictLookup (boostPhase d2) "boost_pressure" := by
    rw [hq, dictLookup_dictSet_ne _ _ _ _ (by decide)]
  constructor
  · intro a b ha hb
    rw [hman] at ha
    rw [hbar] at hb
    rw [hboost]
    exact boostPhase_num d2 a b ha hb
  · intro h
    rw [hman, hbar] at h
    rw [hboost]
    exact boostPhase_none d2 h

/-- Witness for C7: manifold 120 kPa and barometric 100 kPa — both stored as
their 2-decimal roundings — give `boost_pressure
= round(120 − 100, 2) = 20.00`; the final conjunct evaluates the exact
arithmetic. -/
theorem C7_boost_pressure_witness :
    dictLookup (query_obd_data boostEnvW).1 "manifold_pressure" =
      some (PyVal.num (pyround2 120)) ∧
    dictLookup (query_obd_data boostEnvW).1 "boost_pressure" =
      some (PyVal.num (pyround2 (pyround2 120 - pyround2 100))) ∧
    pyround2 (pyround2 120 - pyround2 100) = 20 := by
  refine ⟨rfl, ?_, ?_⟩
  · exact (C7_boost_pressure boostEnvW rfl rfl).1 (pyround2 120) (pyround2 100) rfl rfl
  · have h1 : pyround2 (120 : ℚ) = 120 := by
      have h := pyround2_intCast 120
      push_cast at h
      exact h
    have h2 : pyround2 (100 : ℚ) = 100 := by
      have h := pyround2_intCast 100
      push_cast at h
      exact h
    rw [h1, h2]
    have h3 : (120 : ℚ) - 100 = ((20 : ℤ) : ℚ) := by norm_num
    rw [h3, pyround2_intCast]
    norm_num

/-- Counterexample to C8 as stated: the `STATUS` value `(True, "x")` is a
tuple carrying a MIL flag but no well-formed DTC count — malformed in the
claim's sense — yet the cycle does not degrade to `mil_on = false`,
`dtc_count = 0`: `mil_on` is written as `True` before `int("x")` raises, and
the raise fails the whole cycle with `OBD_QUERY_ERROR`. -/
theorem C8_status_malformed_counterexample :
    dictLookup (query_obd_data statusBadEnv).1 "mil_on" = some (PyVal.bool true) ∧
    dictLookup (query_obd_data statusBadEnv).1 "dtc_count" = some (PyVal.num 0) ∧
    dictLookup (query_obd_data statusBadEnv).1 "status" =
      some (PyVal.str "OBD_QUERY_ERROR") := by
  refine ⟨rfl, rfl, rfl⟩

/-- C8 (corrected): in a ready cycle whose `STATUS` query returns a non-null
value `v`: (a) if `v` is not a tuple of length ≥ 2 the extraction degrades to
`mil_on = false`, `dtc_count = 0` and the cycle still ends with
`status = "OK"`; (b) if `v` is a tuple of length ≥ 2 whose second slot
converts with `int`, then `mil_on = bool(v[0])` and `dtc_count = int(v[1])`
are extracted into the snapshot; (c) but if the second slot does not convert,
`mil_on` has already been written from `v[0]`, `dtc_count` keeps its default
0, and the cycle fails: `status = "OBD_QUERY_ERROR"` with `error_details`
present — the degrade path does not cover this malformed shape. -/
theorem C8_status_extraction_amended (env : Env) (v : PyVal) (u : Option String)
    (hconn : env.conn = readyConn)
    (hhas : ∀ n, env.hasCmd n = true)
    (hstat : env.outcome "STATUS" = .responds false v u) :
    ((∀ xs, v = PyVal.tuple xs → xs.length < 2) →
      dictLookup (query_obd_data env).1 "mil_on" = some (PyVal.bool false) ∧
      dictLookup (query_obd_data env).1 "dtc_count" = some (PyVal.num 0) ∧
      dictLookup (query_obd_data env).1 "status" = some (PyVal.str "OK")) ∧
    (∀ xs kk, v = PyVal.tuple xs → 2 ≤ xs.length →
      pyint (xs.getD 1 PyVal.none) = .ok kk →
      dictLookup (query_obd_data env).1 "mil_on" =
        some (PyVal.bool (pybool (xs.getD 0 PyVal.none))) ∧
      dictLookup (query_obd_data env).1 "dtc_count" = some (PyVal.num kk)) ∧
    (∀ xs e, v = PyVal.tuple xs → 2 ≤ xs.length →
      pyint (xs.getD 1 PyVal.none) = .error e →
      dictLookup (query_obd_data env).1 "mil_on" =
        some (PyVal.bool (pybool (xs.getD 0 PyVal.none))) ∧
      dictLookup (query_obd_data env).1 "dtc_count" = some (PyVal.num 0) ∧
      dictLookup (query_obd_data env).1 "status" =
        some (PyVal.str "OBD_QUERY_ERROR") ∧
      hasKey (query_obd_data env).1 "error_details" = true) := by
  refine ⟨?_, ?_, ?_⟩
  · -- (a) degrade
    intro hdeg
    have hnt : ∀ xs,
        (query_obd_command "STATUS" (.responds false v u)).val = PyVal.tuple xs →
        xs.length < 2 := by
      rcases query_status_val_shape v u with hv | ⟨q, hq, hv⟩
      · rw [hv]
        exact hdeg
      · rw [hv]
        intro xs hx
        cases hx
    have hstepd : ∀ d₀ : Snapshot, mainStep env d₀ "STATUS" =
        .ok (dictSet (dictSet d₀ "mil_on" (PyVal.bool false))
          "dtc_count" (PyVal.num 0)) := by
      intro d₀
      rw [mainStep_out env d₀ "STATUS" _ hstat (by simp), mainDispatch_status,
        statusStep_degrade _ _ hnt]
    have hbenign : statusBenign
        (query_obd_command "STATUS" (env.outcome "STATUS")).val := by
      rw [hstat]
      intro xs hx h2
      exact absurd h2 (by have := hnt xs hx; omega)
    obtain ⟨d1, hmainPhase⟩ := mainPhase_ok_exists env hhas hbenign
    obtain ⟨hmil, hdtc⟩ :=
      mainPhase_status_lookup env d1 _ _ hhas hmainPhase hstepd
    have hmilv : (dictLookup d1 "mil_on").getD PyVal.none = PyVal.bool false := by
      rw [hmil]
      rfl
    have hcntv : (dictLookup d1 "dtc_count").getD (PyVal.num 0) = PyVal.num 0 := by
      rw [hdtc]
      rfl
    have hskip := dtcPhase_skip env d1 false hmilv _ hcntv (by simp)
    have hq1 : (query_obd_data env).1 =
        dictSet (boostPhase d1) "status" (PyVal.str "OK") := by
      rw [query_obd_data_ready env hconn]
      unfold coreQuery
      rw [hmainPhase]
      dsimp only
      rw [hskip]
    refine ⟨?_, ?_, ?_⟩
    · rw [query_field_of_mainPhase env d1 _ hconn hmainPhase (by decide) (by decide)
        (by decide) (by decide)]
      exact hmil
    · rw [query_field_of_mainPhase env d1 _ hconn hmainPhase (by decide) (by decide)
        (by decide) (by decide)]
      exact hdtc
    · rw [hq1]
      exact dictLookup_dictSet_self _ _ _
  · -- (b) extraction
    intro xs kk hv h2 hint
    subst hv
    have hstepb : ∀ d₀ : Snapshot, mainStep env d₀ "STATUS" =
        .ok (dictSet (dictSet d₀ "mil_on"
          (PyVal.bool (pybool (xs.getD 0 PyVal.none)))) "dtc_count" (PyVal.num kk)) := by
      intro d₀
      rw [mainStep_out env d₀ "STATUS" _ hstat (by simp), mainDispatch_status,
        query_status_tuple, statusStep_values d₀ _ h2 kk hint]
    have hbenign : statusBenign
        (query_obd_command "STATUS" (env.outcome "STATUS")).val := by
      rw [hstat, query_status_tuple]
      intro xs' hx h2'
      cases hx
      exact ⟨kk, hint⟩
    obtain ⟨d1, hmainPhase⟩ := mainPhase_ok_exists env hhas hbenign
    obtain ⟨hmil, hdtc⟩ :=
      mainPhase_status_lookup env d1 _ _ hhas hmainPhase hstepb
    exact ⟨by
      rw [query_field_of_mainPhase env d1 _ hconn hmainPhase (by decide) (by decide)
        (by decide) (by decide)]
      exact hmil,
      by
      rw [query_field_of_mainPhase env d1 _ hconn hmainPhase (by decide) (by decide)
        (by decide) (by decide)]
      exact hdtc⟩
  · -- (c) raising count
    intro xs e hv h2 hint
    subst hv
    have hstepc : ∀ d₀ : Snapshot, mainStep env d₀ "STATUS" =
        .error (dictSet d₀ "mil_on" (PyVal.bool (pybool (xs.getD 0 PyVal.none))), e) := by
      intro d₀
      rw [mainStep_out env d₀ "STATUS" _ hstat (by simp), mainDispatch_status,
        query_status_tuple, statusStep_raises d₀ _ h2 e hint]
    have herrstep : ∀ d₀ : Snapshot, stepOk (mainStep env d₀ "STATUS") = false := by
      intro d₀
      rw [hstepc d₀]
      rfl
    have hrun : stepOk (runSteps env mainCmdNames initData) = false :=
      runSteps_error env _ initData "STATUS" status_mem_names herrstep
    obtain ⟨derr, msg, herrEq⟩ :
        ∃ derr msg, runSteps env mainCmdNames initData = .error (derr, msg) := by
      cases h : runSteps env mainCmdNames initData with
      | ok d1 =>
        rw [h] at hrun
        simp [stepOk] at hrun
      | error ee => exact ⟨ee.1, ee.2, rfl⟩
    have hmainPhase : mainPhase env initData = .error (derr, msg) := by
      unfold mainPhase
      rw [filter_all env hhas, herrEq]
    have hquery : (query_obd_data env).1 =
        dictSet (dictSet derr "status" (PyVal.str "OBD_QUERY_ERROR"))
          "error_details" (PyVal.str msg) := by
      rw [query_obd_data_ready env hconn]
      unfold coreQuery
      rw [hmainPhase]
    have hmilerr : dictLookup derr "mil_on" =
        some (PyVal.bool (pybool (xs.getD 0 PyVal.none))) := by
      have h := runSteps_lookup_writer' env mainCmdNames initData "STATUS" "mil_on" _
        names_nodup status_mem_names
        (fun n hn hne => (milDtc_not_written n hn hne).1)
        (fun n hn hne d₀ => mainStep_ok env d₀ n (fun hs => absurd hs hne))
        (fun d₀ => by
          rw [hstepc d₀]
          simp only [stepSnap]
          exact dictLookup_dictSet_self _ _ _)
      rw [herrEq] at h
      simpa [stepSnap] using h
    have hdtcerr : dictLookup derr "dtc_count" = some (PyVal.num 0) := by
      have h := runSteps_pres env mainCmdNames initData "dtc_count"
        (fun n hn d₀ => by
          by_cases hns : n = "STATUS"
          · subst hns
            rw [hstepc d₀]
            simp only [stepSnap]
            exact dictLookup_dictSet_ne _ _ _ _ (by decide)
          · exact mainStep_frame env d₀ n _ ((milDtc_not_written n hn hns).2))
      rw [herrEq] at h
      simp only [stepSnap] at h
      exact h.trans rfl
    refine ⟨?_, ?_, ?_, ?_⟩
    · rw [hquery, dictLookup_dictSet_ne _ _ _ _ (by decide),
        dictLookup_dictSet_ne _ _ _ _ (by decide)]
      exact hmilerr
    · rw [hquery, dictLookup_dictSet_ne _ _ _ _ (by decide),
        dictLookup_dictSet_ne _ _ _ _ (by decide)]
      exact hdtcerr
    · rw [hquery, dictLookup_dictSet_ne _ _ _ _ (by decide)]
      exact dictLookup_dictSet_self _ _ _
    · rw [hquery]
      simp only [hasKey]
      rw [dictLookup_dictSet_self]
      rfl

/-- Witness for C8 (amended): a string-valued `STATUS` degrades cleanly
(part a, on `statusOddEnv`), and the `(True, "x")` tuple takes the raising
path (part c, on `statusBadEnv`); all hypotheses are discharged on the
concrete environments. -/
theorem C8_status_extraction_amended_witness :
    (dictLookup (query_obd_data statusOddEnv).1 "mil_on" = some (PyVal.bool false) ∧
     dictLookup (query_obd_data statusOddEnv).1 "dtc_count" = some (PyVal.num 0) ∧
     dictLookup (query_obd_data statusOddEnv).1 "status" = some (PyVal.str "OK")) ∧
    (dictLookup (query_obd_data statusBadEnv).1 "mil_on" =
        some (PyVal.bool (pybool ([PyVal.bool true,
          PyVal.str "x"].getD 0 PyVal.none))) ∧
     dictLookup (query_obd_data statusBadEnv).1 "dtc_count" = some (PyVal.num 0) ∧
     dictLookup (query_obd_data statusBadEnv).1 "status" =
        some (PyVal.str "OBD_QUERY_ERROR") ∧
     hasKey (query_obd_data statusBadEnv).1 "error_details" = true) :=
  ⟨(C8_status_extraction_amended statusOddEnv (PyVal.str "NOT A TUPLE") Option.none
      rfl (fun _ => rfl) rfl).1 (fun xs hx => by cases hx),
   (C8_status_extraction_amended statusBadEnv
      (PyVal.tuple [PyVal.bool true, PyVal.str "x"]) Option.none
      rfl (fun _ => rfl) rfl).2.2 [PyVal.bool true, PyVal.str "x"] "ValueError"
      rfl (by decide) rfl⟩

/-- C4 (confirmed): in a ready cycle in which exactly one gathered parameter
query `f` fails (it raises — covering exceptions and timeouts — or returns a
null response) while every other query succeeds (quantities for the plain
parameters, strings for the string-typed ones, a clean `STATUS`, a string
VIN), the snapshot stores null exactly under `f`'s mapped key, stores the
processed value under every other mapped key, and the cycle's `status`
remains `"OK"`: a single-parameter failure never aborts the batch or the
cycle. -/
theorem C4_single_failure_isolation (env : Env) (f : String)
    (m : String → ℚ) (uq : String → String) (t : String → String)
    (ign : PyVal) (u : Option String) (vs : String)
    (hconn : env.conn = readyConn)
    (hhas : ∀ n, env.hasCmd n = true)
    (hf : f ∈ mainCmdNames) (hfS : f ≠ "STATUS") (hfV : f ≠ "VIN")
    (hfail : failedOutcome (env.outcome f))
    (hnum : ∀ c ∈ mainCmdNames, c ≠ f → c ∉ exceptionalNames →
      env.outcome c = .responds false (PyVal.quantity (m c) (uq c)) Option.none)
    (hstr : ∀ c ∈ (["FUEL_TYPE", "ECU_NAME", "FUEL_STATUS", "OBD_COMPLIANCE"] :
        List String), c ≠ f → env.outcome c = .responds false (PyVal.str (t c)) Option.none)
    (hstat : env.outcome "STATUS" =
      .responds false (PyVal.tuple [PyVal.bool false, PyVal.num 0, ign]) u)
    (hvin : env.outcome "VIN" = .responds false (PyVal.str vs) Option.none) :
    dictLookup (query_obd_data env).1 "status" = some (PyVal.str "OK") ∧
    dictLookup (query_obd_data env).1 (mapKey f) = some PyVal.none ∧
    (∀ c ∈ mainCmdNames, c ≠ f → c ∉ exceptionalNames →
      dictLookup (query_obd_data env).1 (mapKey c) =
        some (PyVal.num (expectedVal c (m c)))) ∧
    (∀ c ∈ (["FUEL_TYPE", "ECU_NAME", "FUEL_STATUS", "OBD_COMPLIANCE"] :
        List String), c ≠ f →
      dictLookup (query_obd_data env).1 (mapKey c) = some (PyVal.str (t c))) := by
  have hint0 : pyint (PyVal.num 0) = .ok 0 := by
    have h0 : ratTrunc ((0 : ℤ) : ℚ) = 0 := ratTrunc_intCast 0
    push_cast at h0
    show Except.ok (ratTrunc (0 : ℚ)) = Except.ok 0
    rw [h0]
  have hsteps : ∀ d₀ : Snapshot, mainStep env d₀ "STATUS" =
      .ok (dictSet (dictSet d₀ "mil_on" (PyVal.bool false))
        "dtc_count" (PyVal.num ((0 : ℤ) : ℚ))) := by
    intro d₀
    rw [mainStep_out env d₀ "STATUS" _ hstat (by simp), mainDispatch_status,
      query_status_tuple, statusStep_values d₀ _ (by simp) 0 (by exact hint0)]
    rfl
  have hbenign : statusBenign
      (query_obd_command "STATUS" (env.outcome "STATUS")).val := by
    rw [hstat, query_status_tuple]
    intro xs' hx h2'
    cases hx
    exact ⟨0, by exact hint0⟩
  obtain ⟨d1, hmainPhase⟩ := mainPhase_ok_exists env hhas hbenign
  have hmainList : runSteps env mainCmdNames initData = .ok d1 := by
    have h := hmainPhase
    unfold mainPhase at h
    rwa [filter_all env hhas] at h
  obtain ⟨hmil, hdtc⟩ := mainPhase_status_lookup env d1 _ _ hhas hmainPhase hsteps
  have hmilv : (dictLookup d1 "mil_on").getD PyVal.none = PyVal.bool false := by
    rw [hmil]
    rfl
  have hcntv : (dictLookup d1 "dtc_count").getD (PyVal.num 0) =
      PyVal.num ((0 : ℤ) : ℚ) := by
    rw [hdtc]
    rfl
  have hskip := dtcPhase_skip env d1 false hmilv _ hcntv (by simp)
  have hothok : ∀ n ∈ mainCmdNames, ∀ d₀ : Snapshot,
      stepOk (mainStep env d₀ n) = true :=
    fun n _ d₀ => mainStep_ok env d₀ n (fun _ => hbenign)
  refine ⟨?_, ?_, ?_, ?_⟩
  · -- status stays OK
    rw [query_obd_data_ready env hconn]
    unfold coreQuery
    rw [hmainPhase]
    dsimp only
    rw [hskip]
    exact dictLookup_dictSet_self _ _ _
  · -- f's field is null
    have hkeyf := map_total f hf hfS hfV
    have hstepf : ∀ d₀ : Snapshot, mainStep env d₀ f =
        .ok (mappedStep d₀ (mapKey f) PyVal.none Option.none) := by
      intro d₀
      rcases hfail with hr | ⟨v0, u0, hr⟩
      · rw [mainStep_out env d₀ f _ hr (by simp),
          mainDispatch_mapped _ _ _ _ hfS hfV hkeyf]
        rfl
      · rw [mainStep_out env d₀ f _ hr (by simp),
          mainDispatch_mapped _ _ _ _ hfS hfV hkeyf]
        rfl
    have hlookf : dictLookup d1 (mapKey f) = some PyVal.none := by
      have h := runSteps_lookup_writer' env mainCmdNames initData f (mapKey f)
        PyVal.none names_nodup hf
        (fun n hn hne => writes_disjoint f hf hfS hfV n hn hne)
        (fun n hn _ d₀ => hothok n hn d₀)
        (fun d₀ => by
          rw [hstepf d₀]
          simp only [stepSnap]
          exact mappedStep_lookup_key _ _ _ _)
      rw [hmainList] at h
      simpa [stepSnap] using h
    obtain ⟨hne1, hne2, hne3, hne4⟩ := mapKey_fresh f hf hfS hfV
    rw [query_field_of_mainPhase env d1 _ hconn hmainPhase hne3 hne2 hne1 hne4]
    exact hlookf
  · -- the other plain parameters are populated
    intro c hc hcf hcex
    have hcS : c ≠ "STATUS" := fun h => hcex (by rw [h]; decide)
    have hcV : c ≠ "VIN" := fun h => hcex (by rw [h]; decide)
    have hcstr : c ∉ strTypedNames := fun h => hcex (strTyped_in_exceptional c h)
    have hkeyc := map_total c hc hcS hcV
    have hstepc : ∀ d₀ : Snapshot, mainStep env d₀ c =
        .ok (mappedStep d₀ (mapKey c) (PyVal.num (expectedVal c (m c)))
          (some (expectedUnit c (uq c)))) := by
      intro d₀
      rw [mainStep_out env d₀ c _ (hnum c hc hcf hcex) (by simp),
        mainDispatch_mapped _ _ _ _ hcS hcV hkeyc,
        query_quantity c (m c) (uq c) hcstr hcS (not_getdtc c hc)]
    have hlookc : dictLookup d1 (mapKey c) =
        some (PyVal.num (expectedVal c (m c))) := by
      have h := runSteps_lookup_writer' env mainCmdNames initData c (mapKey c)
        (PyVal.num (expectedVal c (m c))) names_nodup hc
        (fun n hn hne => writes_disjoint c hc hcS hcV n hn hne)
        (fun n hn _ d₀ => hothok n hn d₀)
        (fun d₀ => by
          rw [hstepc d₀]
          simp only [stepSnap]
          exact mappedStep_lookup_key _ _ _ _)
      rw [hmainList] at h
      simpa [stepSnap] using h
    obtain ⟨hne1, hne2, hne3, hne4⟩ := mapKey_fresh c hc hcS hcV
    rw [query_field_of_mainPhase env d1 _ hconn hmainPhase hne3 hne2 hne1 hne4]
    exact hlookc
  · -- the string-typed parameters are populated
    intro c hc hcf
    obtain ⟨hcmem, hcS, hcV⟩ := strTyped_sub_exceptional c hc
    have hkeyc := map_total c hcmem hcS hcV
    have hstepc : ∀ d₀ : Snapshot, mainStep env d₀ c =
        .ok (mappedStep d₀ (mapKey c) (PyVal.str (t c)) Option.none) := by
      intro d₀
      rw [mainStep_out env d₀ c _ (hstr c hc hcf) (by simp),
        mainDispatch_mapped _ _ _ _ hcS hcV hkeyc]
      fin_cases hc <;> rfl
    have hlookc : dictLookup d1 (mapKey c) = some (PyVal.str (t c)) := by
      have h := runSteps_lookup_writer' env mainCmdNames initData c (mapKey c)
        (PyVal.str (t c)) names_nodup hcmem
        (fun n hn hne => writes_disjoint c hcmem hcS hcV n hn hne)
        (fun n hn _ d₀ => hothok n hn d₀)
        (fun d₀ => by
          rw [hstepc d₀]
          simp only [stepSnap]
          exact mappedStep_lookup_key _ _ _ _)
      rw [hmainList] at h
      simpa [stepSnap] using h
    obtain ⟨hne1, hne2, hne3, hne4⟩ := mapKey_fresh c hcmem hcS hcV
    rw [query_field_of_mainPhase env d1 _ hconn hmainPhase hne3 hne2 hne1 hne4]
    exact hlookc

/-- Witness for C4: in `oneFailEnv` exactly the `RPM` query raises; the
snapshot keeps `status = "OK"`, has `rpm` null, and stores the processed
100-unit quantity under another parameter's key (`coolant_temp`). -/
theorem C4_single_failure_isolation_witness :
    dictLookup (query_obd_data oneFailEnv).1 "status" = some (PyVal.str "OK") ∧
    dictLookup (query_obd_data oneFailEnv).1 "rpm" = some PyVal.none ∧
    dictLookup (query_obd_data oneFailEnv).1 "coolant_temp" =
      some (PyVal.num (expectedVal "COOLANT_TEMP" 100)) := by
  have h := C4_single_failure_isolation oneFailEnv "RPM" (fun _ => 100)
    (fun _ => "percent")
    (fun c => if c = "FUEL_TYPE" then "Gasoline" else if c = "ECU_NAME" then "ECM"
      else if c = "FUEL_STATUS" then "Closed loop" else "OBD-II")
    (PyVal.str "spark") Option.none "1G1ZT53826F109149"
    rfl (fun _ => rfl) (by decide) (by decide) (by decide)
    (Or.inl rfl)
    (fun c hc hcf hcex => by
      have hnr : c ≠ "RPM" := hcf
      simp only [exceptionalNames, List.mem_cons, List.not_mem_nil, or_false] at hcex
      push_neg at hcex
      obtain ⟨h1, h2, h3, h4, h5, h6⟩ := hcex
      show oneFailEnv.outcome c = _
      simp only [oneFailEnv]
      rw [if_neg hnr, if_neg h1, if_neg h2, if_neg h3, if_neg h4, if_neg h5, if_neg h6])
    (fun c hc hcf => by fin_cases hc <;> rfl)
    rfl rfl
  exact ⟨h.1, h.2.1, h.2.2.1 "COOLANT_TEMP" (by decide) (by decide) (by decide)⟩

/-- Witness for C10: the extreme all-null cycle — every parameter query
returns a null response — still completes the `try` body and reports
`status = "OK"`, with the telemetry fields (e.g. `rpm`) null. -/
theorem C10_status_ok_iff_witness :
    exceptIsOk (coreQuery allNullEnv) = true ∧
    dictLookup (query_obd_data allNullEnv).1 "status" = some (PyVal.str "OK") ∧
    dictLookup (query_obd_data allNullEnv).1 "rpm" = some PyVal.none :=
  ⟨rfl, (C10_status_ok_iff allNullEnv rfl).1 rfl, rfl⟩

end QWp


